import Mathlib

/-!
Verification of the support-ticket workflow engine.

This file contains a shallow embedding of the workflow pipeline
(validator, classifier, extractor, generator, router, orchestrator) from
`backend/app/services/workflow/` and of the schema types from
`backend/app/schemas/`, together with theorems checking the specified
behaviour against the embedded code.

Modelling conventions:
* Python strings are Lean `String`s (processed as `List Char`); all texts in
  scope are ASCII, so ASCII case folding and ASCII character classes model
  Python's `str.lower` / `re` behaviour on these inputs.
* Python floats are modelled as exact rationals (the `Frac` type below);
  every arithmetic expression involved is exact in both models.
* Wall-clock data (timestamps, durations, uuid generation) is not part of any
  claim; duration fields are dropped and the generated ticket id is passed in
  as a parameter.
* Python exceptions are modelled with `Except Exc`; the only exception
  sources in the model are the AI-collaborator calls (an oracle that may
  return an error) and, for the orchestrator, an environment that may raise a
  timeout/cancellation at the awaited stage boundaries of `execute`.
* Python dicts preserving insertion order are modelled as association lists.
-/

namespace TicketWorkflow

/-! ## Python string helpers -/

/-- Python `\s` / `str.strip` whitespace characters (ASCII range). -/
def isPySpace (c : Char) : Bool :=
  c = ' ' || c = '\t' || c = '\n' || c = '\r' || c = Char.ofNat 11 || c = Char.ofNat 12

/-- ASCII letter test. -/
def isAsciiAlpha (c : Char) : Bool :=
  (65 ≤ c.toNat && c.toNat ≤ 90) || (97 ≤ c.toNat && c.toNat ≤ 122)

/-- ASCII digit test. -/
def isAsciiDigit (c : Char) : Bool :=
  48 ≤ c.toNat && c.toNat ≤ 57

/-- Python regex `\w` (word character), ASCII fragment. -/
def isWordChar (c : Char) : Bool :=
  isAsciiAlpha c || isAsciiDigit c || c = '_'

/-- ASCII lower-casing of one character (Python `str.lower` on ASCII). -/
def toLowerC (c : Char) : Char :=
  if 65 ≤ c.toNat && c.toNat ≤ 90 then Char.ofNat (c.toNat + 32) else c

def lowerL (s : List Char) : List Char := s.map toLowerC

/-- Python `str.strip()` on a character list. -/
def pyStripL (s : List Char) : List Char :=
  ((s.dropWhile isPySpace).reverse.dropWhile isPySpace).reverse

def pyStrip (s : String) : String := String.mk (pyStripL s.data)

def pyLower (s : String) : String := String.mk (lowerL s.data)

/-- Substring containment (Python `needle in hay`). -/
def containsSub (needle hay : List Char) : Bool :=
  match hay with
  | [] => needle.isEmpty
  | _ :: t => needle.isPrefixOf hay || containsSub needle t

/-- Python `s.split(sep)[0]`: prefix up to the first occurrence of `sep`. -/
def splitFirst (sep : Char) (s : String) : String :=
  String.mk (s.data.takeWhile (fun c => c ≠ sep))

/-! ## Exact rationals

Python floats are modelled as exact rationals: every arithmetic expression
appearing in the source (sums and products of decimal constants, ratios of
small counts, `min`, comparisons) is computed exactly by IEEE doubles up to
identical rounding on identical expressions, and in particular the equality
and ordering facts used by the theorems hold in both models.  A bespoke
always-normalized fraction type is used (denominator positive, fraction in
lowest terms), so that equality is structural and every operation reduces
inside the kernel. -/

structure Frac where
  num : Int
  den : Nat
deriving Repr, DecidableEq

/-- Normalize a fraction; all uses have a positive denominator. -/
def Frac.norm (n : Int) (d : Nat) : Frac :=
  let g := n.natAbs.gcd d
  if g = 0 then ⟨0, 1⟩ else ⟨n / (g : Int), d / g⟩

/-- The rational `n / d`. -/
def q (n : Int) (d : Nat) : Frac := Frac.norm n d

def Frac.ofNat (n : Nat) : Frac := ⟨(n : Int), 1⟩

def Frac.add (a b : Frac) : Frac :=
  Frac.norm (a.num * (b.den : Int) + b.num * (a.den : Int)) (a.den * b.den)

def Frac.mul (a b : Frac) : Frac := Frac.norm (a.num * b.num) (a.den * b.den)

/-- `a ≤ b` (denominators are positive). -/
def Frac.le (a b : Frac) : Bool := a.num * (b.den : Int) ≤ b.num * (a.den : Int)

/-- `a < b` (denominators are positive). -/
def Frac.lt (a b : Frac) : Bool := a.num * (b.den : Int) < b.num * (a.den : Int)

/-- Python `min` on two numbers. -/
def Frac.fmin (a b : Frac) : Frac := if Frac.le a b then a else b

/-- The ratio of two counts, e.g. `len(matches) / len(keywords)`. -/
def Frac.ratioN (a b : Nat) : Frac := Frac.norm (a : Int) b

/-! ## A small backtracking regex engine

Faithful to the fragment of Python `re` used by the repository: literal
characters, character classes, alternation (leftmost preference), greedy
`*` / `?` / bounded repetition, non-capturing and capturing groups, and the
zero-width word-boundary assertion `\b`.  Patterns in the source are compiled
with `re.IGNORECASE`, which is reflected when each pattern is transliterated
(case-insensitive literals and case-closed character classes). -/

inductive RE where
  | eps : RE
  | pred : (Char → Bool) → RE
  | cat : RE → RE → RE
  | alt : RE → RE → RE
  | star : RE → RE
  | group : Nat → RE → RE
  | bword : RE

def isWordOpt : Option Char → Bool
  | none => false
  | some c => isWordChar c

/-- Result of one match attempt: characters consumed, captured groups
(most recent first), the character preceding the rest, and the rest. -/
abbrev MRes := List Char × List (Nat × List Char) × Option Char × List Char

/-- CPS backtracking matcher.  `prev` is the character just before the
current position (for `\b`), `s` the rest of the input, `gs` the captures
so far.  Greedy/leftmost semantics as in Python `re`. -/
def mtch : Nat → RE → Option Char → List Char → List (Nat × List Char) →
    (Option Char → List Char → List (Nat × List Char) → Option MRes) → Option MRes
  | 0, _, _, _, _, _ => none
  | Nat.succ fuel, re, prev, s, gs, k =>
    match re with
    | .eps => k prev s gs
    | .pred p =>
      match s with
      | [] => none
      | c :: rest => if p c then k (some c) rest gs else none
    | .cat r1 r2 =>
      mtch fuel r1 prev s gs (fun p2 s2 g2 => mtch fuel r2 p2 s2 g2 k)
    | .alt r1 r2 =>
      match mtch fuel r1 prev s gs k with
      | some x => some x
      | none => mtch fuel r2 prev s gs k
    | .star r =>
      match mtch fuel r prev s gs (fun p2 s2 g2 =>
          if s2.length < s.length then mtch fuel (.star r) p2 s2 g2 k
          else k p2 s2 g2) with
      | some x => some x
      | none => k prev s gs
    | .group i r =>
      mtch fuel r prev s gs (fun p2 s2 g2 =>
        k p2 s2 ((i, s.take (s.length - s2.length)) :: g2))
    | .bword =>
      if isWordOpt prev != isWordOpt s.head? then k prev s gs else none

/-- Depth bound for the matcher: every `mtch` call either descends into the
pattern or consumes input inside a star, so this fuel is never exhausted on
the inputs considered. -/
def matcherFuel (s : List Char) : Nat := 64 * s.length + 4096

/-- Try to match `re` at the current position, returning the consumed
prefix, the captures, and the rest. -/
def matchHere (re : RE) (prev : Option Char) (s : List Char) : Option MRes :=
  mtch (matcherFuel s) re prev s []
    (fun p2 s2 g2 => some (s.take (s.length - s2.length), g2, p2, s2))

/-- Python `re.finditer`: scan left to right, take the leftmost match at
each position, continue after each (non-empty) match. -/
def findIter (re : RE) : Nat → Option Char → List Char → List (List Char × List (Nat × List Char))
  | 0, _, _ => []
  | Nat.succ fuel, prev, s =>
    match matchHere re prev s with
    | some (m, gs, p2, s2) =>
      if m.isEmpty then
        match s with
        | [] => [(m, gs)]
        | c :: rest => (m, gs) :: findIter re fuel (some c) rest
      else (m, gs) :: findIter re fuel p2 s2
    | none =>
      match s with
      | [] => []
      | c :: rest => findIter re fuel (some c) rest

def reFindAll (re : RE) (s : List Char) : List (List Char × List (Nat × List Char)) :=
  findIter re (s.length + 1) none s

/-- Python `re.search` as a Boolean. -/
def reSearch (re : RE) (s : List Char) : Bool :=
  !(reFindAll re s).isEmpty

/-- Python `re.match` against a pattern of the form `^body$` (no MULTILINE):
the whole input must match, allowing one trailing newline before `$`. -/
def reMatchFull (re : RE) (s : List Char) : Bool :=
  (mtch (matcherFuel s) re none s []
    (fun p2 s2 g2 =>
      if s2 = [] || s2 = ['\n'] then some (s, g2, p2, s2) else none)).isSome

/-! ### Pattern combinators (transliteration helpers) -/

/-- Case-insensitive literal (`re.IGNORECASE`). -/
def ciChar (c : Char) : RE := .pred (fun x => toLowerC x = toLowerC c)

def ciStr (s : String) : RE := s.data.foldr (fun c r => .cat (ciChar c) r) .eps

/-- Case-sensitive literal character. -/
def csChar (c : Char) : RE := .pred (fun x => x = c)

def reOpt (r : RE) : RE := .alt r .eps

def rePlus (r : RE) : RE := .cat r (.star r)

/-- Exactly `n` copies. -/
def reExact : Nat → RE → RE
  | 0, _ => .eps
  | Nat.succ n, r => .cat r (reExact n r)

/-- Greedily 0..n copies. -/
def reUpTo : Nat → RE → RE
  | 0, _ => .eps
  | Nat.succ n, r => .alt (.cat r (reUpTo n r)) .eps

/-- Bounded repetition `{lo,hi}` (greedy). -/
def reRep (lo hi : Nat) (r : RE) : RE := .cat (reExact lo r) (reUpTo (hi - lo) r)

def reCats (rs : List RE) : RE := rs.foldr .cat .eps

def reAlts (r : RE) (rs : List RE) : RE := rs.foldl .alt r

/-- Word-bounded, case-sensitive literal search: Python
`re.search(r"\b" + re.escape(kw) + r"\b", text)` on pre-lowered text. -/
def searchWordBounded (kw : List Char) (text : List Char) : Bool :=
  reSearch (reCats [.bword, kw.foldr (fun c r => .cat (csChar c) r) .eps, .bword]) text

/-! ## Data model (`app/schemas/ticket.py`, `app/schemas/workflow.py`)

Wall-clock fields (`started_at`, `completed_at`, `duration_ms`,
`total_duration_ms`, `created_at`) are omitted: they carry no
claim-relevant information.  Confidence floats are exact rationals. -/

structure TicketInput where
  subject : String
  body : String
  customer_id : Option String := none
  customer_email : Option String := none
  metadata : List (String × String) := []
deriving Repr, DecidableEq

structure ClassificationResult where
  category : String
  category_confidence : Frac
  severity : String
  severity_confidence : Frac
  secondary_categories : List String := []
  reasoning : Option String := none
  keywords_matched : List String := []
  urgency_indicators : List String := []
deriving Repr, DecidableEq

/-- `ExtractedField.value` has Python type `Any`; the two shapes actually
produced are a string or a list of strings (`priority_keywords`). -/
inductive FieldValue where
  | str : String → FieldValue
  | strList : List String → FieldValue
deriving Repr, DecidableEq

/-- Python truthiness of a field value (`if email_field.value`). -/
def FieldValue.truthy : FieldValue → Bool
  | .str s => s ≠ ""
  | .strList l => l ≠ []

/-- Python `str(value)`; the list case mirrors `repr` of a list of strings. -/
def FieldValue.pyStr : FieldValue → String
  | .str s => s
  | .strList l =>
    "[" ++ String.intercalate ", "
      (l.map (fun s => String.singleton (Char.ofNat 39) ++ s ++ String.singleton (Char.ofNat 39))) ++ "]"

structure ExtractedField where
  name : String
  value : FieldValue
  confidence : Frac
  source_span : Option String := none
deriving Repr, DecidableEq

structure ExtractionResult where
  fields : List ExtractedField := []
  missing_required : List String := []
  validation_errors : List String := []
deriving Repr, DecidableEq

structure ResponseDraft where
  content : String
  tone : String
  template_used : Option String := none
  suggested_actions : List String := []
  requires_escalation : Bool := false
  greeting : Option String := none
  acknowledgment : Option String := none
  explanation : Option String := none
  action_items : List String := []
  timeline : Option String := none
  closing : Option String := none
deriving Repr, DecidableEq

structure RoutingDecision where
  team : String
  priority : String
  reasoning : String
  alternative_teams : List String := []
  escalation_path : Option (List String) := none
  confidence : Frac := Frac.ofNat 1
deriving Repr, DecidableEq

structure WorkflowStepResult where
  step_name : String
  status : String
  error : Option String := none
  fallback_used : Bool := false
  tokens_used : Option Nat := none
deriving Repr, DecidableEq

structure WorkflowOptions where
  skip_classification : Bool := false
  skip_extraction : Bool := false
  skip_response : Bool := false
  skip_routing : Bool := false
  response_tone : String := "friendly"
  enable_duplicate_detection : Bool := true
  enable_parallel : Bool := true
deriving Repr, DecidableEq

structure WorkflowResponse where
  ticket_id : String
  classification : ClassificationResult
  extracted_fields : ExtractionResult
  response_draft : Option ResponseDraft := none
  routing : RoutingDecision
  duplicate_of : Option String := none
  similarity_score : Option Frac := none
  workflow_steps : List WorkflowStepResult := []
deriving Repr, DecidableEq

/-! ## Field extractor (`app/services/workflow/extractors.py`)

Each regex from `EXTRACTION_PATTERNS` / `VALIDATION_PATTERNS` is
transliterated to an `RE`; all are compiled with `re.IGNORECASE` in the
source, reflected below with case-insensitive literals (`ciStr`) and
case-closed character classes. -/

def clsDigit : RE := .pred isAsciiDigit
def clsAlpha : RE := .pred isAsciiAlpha
def clsLetterDigit : RE := .pred (fun c => isAsciiAlpha c || isAsciiDigit c)
def clsHex : RE := .pred (fun c => isAsciiDigit c || (toLowerC c).toNat ≥ 97 && (toLowerC c).toNat ≤ 102)
def clsSpace : RE := .pred isPySpace
def clsEmailLocal : RE :=
  .pred (fun c => isAsciiAlpha c || isAsciiDigit c || c = '.' || c = '_' || c = '%' || c = '+' || c = '-')
def clsDomainChar : RE := .pred (fun c => isAsciiAlpha c || isAsciiDigit c || c = '.' || c = '-')
def clsSep : RE := .pred (fun c => c = '-' || c = '.' || isPySpace c)
def clsColonSpace : RE := .pred (fun c => c = ':' || isPySpace c)
def clsSlashDash : RE := .pred (fun c => c = '/' || c = '-')
def clsDigitComma : RE := .pred (fun c => isAsciiDigit c || c = ',')
def clsProductChar : RE := .pred (fun c => isAsciiAlpha c || isAsciiDigit c || isPySpace c || c = '-')
def clsProdNameChar : RE := .pred (fun c => isAsciiAlpha c || isAsciiDigit c || isPySpace c)
def clsUrlChar : RE :=
  .pred (fun c => !(isPySpace c || c = '<' || c = '>' || c = Char.ofNat 123 || c = Char.ofNat 125 ||
    c = '|' || c = Char.ofNat 92 || c = '^' || c = '~' || c = '[' || c = ']'))
def clsPhoneStart : RE := .pred (fun c => c = '+' || isAsciiDigit c)
def clsPhoneBody : RE := .pred (fun c => isAsciiDigit c || isPySpace c || c = '-' || c = '(' || c = ')')
def clsIdDashHash : RE := .pred (fun c => isAsciiAlpha c || isAsciiDigit c || c = '-' || c = '#')
def clsPhoneVal : RE := .pred (fun c => isAsciiDigit c || isPySpace c || c = '-' || c = '+' || c = '(' || c = ')')
def clsCodeVal : RE := .pred (fun c => isAsciiAlpha c || isAsciiDigit c || c = '-' || c = '_')

/-- A compiled extraction pattern together with its capture-group count. -/
structure Pat where
  re : RE
  ngroups : Nat

/-- `EXTRACTION_PATTERNS` from `extractors.py`, in dict insertion order. -/
def EXTRACTION_PATTERNS : List (String × List Pat) :=
  [ ("order_id",
     [ ⟨reCats [.bword, .alt (ciStr "ORD") (ciStr "ORDER"), reOpt (csChar '-'),
         .group 1 (reRep 5 10 clsDigit), .bword], 1⟩,
       ⟨reCats [csChar '#', .group 1 (reRep 5 10 clsDigit), .bword], 1⟩,
       ⟨reCats [.bword, reAlts (ciStr "order") [ciStr "invoice", ciStr "transaction"],
         .star clsSpace, reOpt (reAlts (ciStr "id") [ciStr "number", ciStr "#"]),
         .star clsSpace, reOpt clsColonSpace, .star clsSpace,
         .group 1 (reRep 5 15 clsLetterDigit), .bword], 1⟩ ]),
    ("account_email",
     [ ⟨reCats [.bword, .group 1 (reCats [rePlus clsEmailLocal, csChar '@',
         rePlus clsDomainChar, csChar '.', reExact 2 clsAlpha, .star clsAlpha]), .bword], 1⟩ ]),
    ("phone_number",
     [ ⟨reCats [.bword, reOpt (reCats [reOpt (csChar '+'), csChar '1', reOpt clsSep]),
         reOpt (csChar '('), .group 1 (reExact 3 clsDigit), reOpt (csChar ')'), reOpt clsSep,
         .group 2 (reExact 3 clsDigit), reOpt clsSep, .group 3 (reExact 4 clsDigit), .bword], 3⟩,
       ⟨reCats [.bword, reOpt (csChar '+'), .group 1 (reRep 1 3 clsDigit), reOpt clsSep,
         .group 2 (reRep 2 4 clsDigit), reOpt clsSep, .group 3 (reRep 3 4 clsDigit), reOpt clsSep,
         .group 4 (reRep 3 4 clsDigit), .bword], 4⟩,
       ⟨reCats [.bword, reAlts (ciStr "tel") [ciStr "phone", ciStr "cell", ciStr "mobile"],
         .star clsColonSpace, .group 1 (reCats [clsPhoneStart, reRep 7 20 clsPhoneBody]), .bword], 1⟩ ]),
    ("error_code",
     [ ⟨reCats [.bword, .alt (ciStr "ERR") (ciStr "ERROR"), reOpt (csChar '-'),
         .group 1 (reRep 3 6 clsDigit), .bword], 1⟩,
       ⟨reCats [.bword, ciStr "0x", .group 1 (reRep 4 8 clsHex), .bword], 1⟩,
       ⟨reCats [.bword, reAlts (ciStr "error") [ciStr "exception", ciStr "fault"],
         .star clsColonSpace, .group 1 (reRep 3 10 clsLetterDigit), .bword], 1⟩,
       ⟨reCats [.bword, .group 1 (reCats [reRep 2 4 clsAlpha,
         reOpt (.pred (fun c => c = '-' || c = '_')), reRep 3 6 clsDigit]), .bword], 1⟩ ]),
    ("product_name",
     [ ⟨reCats [.bword, reAlts (ciStr "product") [ciStr "item", ciStr "service"],
         .star clsColonSpace, .group 1 (reRep 3 50 clsProductChar), .bword], 1⟩,
       ⟨reCats [.bword, reAlts (ciStr "using") [ciStr "with", ciStr "on"], rePlus clsSpace,
         reOpt (reCats [ciStr "the", rePlus clsSpace]),
         .group 1 (reCats [clsAlpha, reRep 2 30 clsProdNameChar]), .bword], 1⟩ ]),
    ("url",
     [ ⟨reCats [.bword, .group 1 (reCats [ciStr "http", reOpt (ciChar 's'), ciStr "://",
         rePlus clsUrlChar]), .bword], 1⟩ ]),
    ("account_id",
     [ ⟨reCats [.bword, reAlts (ciStr "account") [ciStr "user", ciStr "customer"],
         .star clsSpace, reOpt (.alt (ciStr "id") (ciStr "number")), .star clsColonSpace,
         .group 1 (reRep 4 20 clsLetterDigit), .bword], 1⟩,
       ⟨reCats [.bword, reAlts (ciStr "ACC") [ciStr "USR", ciStr "CUST"], reOpt (csChar '-'),
         .group 1 (reRep 4 15 clsDigit), .bword], 1⟩ ]),
    ("date",
     [ ⟨reCats [.bword, .group 1 (reCats [reRep 1 2 clsDigit, clsSlashDash, reRep 1 2 clsDigit,
         clsSlashDash, reRep 2 4 clsDigit]), .bword], 1⟩,
       ⟨reCats [.bword, .group 1 (reCats [reExact 4 clsDigit, clsSlashDash, reRep 1 2 clsDigit,
         clsSlashDash, reRep 1 2 clsDigit]), .bword], 1⟩,
       ⟨reCats [.bword, .group 1 (reCats [reAlts (ciStr "Jan") [ciStr "Feb", ciStr "Mar",
         ciStr "Apr", ciStr "May", ciStr "Jun", ciStr "Jul", ciStr "Aug", ciStr "Sep",
         ciStr "Oct", ciStr "Nov", ciStr "Dec"], .star clsAlpha, rePlus clsSpace,
         reRep 1 2 clsDigit, reOpt (csChar ','), rePlus clsSpace, reExact 4 clsDigit]), .bword], 1⟩ ]),
    ("amount",
     [ ⟨reCats [.bword, csChar '$', .group 1 (reCats [rePlus clsDigitComma, reOpt (csChar '.'),
         .star clsDigit]), .bword], 1⟩,
       ⟨reCats [.bword, .group 1 (reCats [rePlus clsDigitComma, reOpt (csChar '.'),
         .star clsDigit]), .star clsSpace, reAlts (ciStr "USD") [ciStr "EUR", ciStr "GBP"], .bword], 1⟩,
       ⟨reCats [.bword, reAlts (ciStr "amount") [ciStr "total", ciStr "price", ciStr "cost"],
         .star clsColonSpace, reOpt (csChar '$'), .group 1 (reCats [rePlus clsDigitComma,
         reOpt (csChar '.'), .star clsDigit]), .bword], 1⟩ ]) ]

def PRIORITY_KEYWORDS : List String :=
  ["urgent", "asap", "immediately", "critical", "emergency",
   "important", "priority", "quickly", "soon", "now",
   "as soon as possible", "right away", "help me"]

def CATEGORY_REQUIRED_FIELDS : List (String × List String) :=
  [("technical", ["error_code"]), ("billing", ["order_id", "amount"]),
   ("account", ["account_email"]), ("bug_report", ["error_code"]),
   ("feature_request", []), ("general", [])]

/-- `VALIDATION_PATTERNS`, anchored `^...$` patterns used with `re.match`. -/
def VALIDATION_PATTERNS : List (String × RE) :=
  [ ("account_email", reCats [rePlus clsEmailLocal, csChar '@', rePlus clsDomainChar,
      csChar '.', reExact 2 clsAlpha, .star clsAlpha]),
    ("order_id", reRep 5 20 clsIdDashHash),
    ("phone_number", reRep 7 20 clsPhoneVal),
    ("error_code", reRep 3 15 clsCodeVal) ]

def lookupAssoc {α : Type} (l : List (String × α)) (k : String) : Option α :=
  (l.find? (fun p => p.1 = k)).map Prod.snd

/-- ASCII upper-casing (Python `str.upper` on ASCII). -/
def toUpperC (c : Char) : Char :=
  if 97 ≤ c.toNat && c.toNat ≤ 122 then Char.ofNat (c.toNat - 32) else c

/-- `FieldExtractor._normalize_value`. -/
def normalize_value (field_name : String) (value : List Char) : List Char :=
  if field_name = "account_email" then pyStripL (lowerL value)
  else if field_name = "phone_number" then
    value.filter (fun c => isAsciiDigit c || c = '+' || c = '-' || c = '(' || c = ')' || isPySpace c)
  else if field_name = "order_id" then pyStripL (value.map toUpperC)
  else if field_name = "error_code" then pyStripL (value.map toUpperC)
  else if field_name = "amount" then pyStripL (value.filter (fun c => c ≠ ','))
  else pyStripL value

/-- `FieldExtractor._calculate_regex_confidence`. -/
def calculate_regex_confidence (field_name : String) (value : List Char) : Frac :=
  let base : Frac := q 7 10
  let base := match lookupAssoc VALIDATION_PATTERNS field_name with
    | some vp => if reMatchFull vp value then base.add (q 15 100) else base
    | none => base
  let afterAt := (value.reverse.takeWhile (fun c => c ≠ '@')).reverse
  let base :=
    if field_name = "account_email" && value.contains '@' && afterAt.contains '.' then
      base.add (q 1 10)
    else if field_name = "order_id" && (5 ≤ value.length && value.length ≤ 20) then
      base.add (q 1 10)
    else if field_name = "phone_number" &&
        (7 ≤ (value.filter isAsciiDigit).length && (value.filter isAsciiDigit).length ≤ 15) then
      base.add (q 1 10)
    else base
  Frac.fmin (q 95 100) base

/-- Value selection from a match: `group(1)` when the pattern has one
capture group, else the concatenation of all groups (`"".join(groups)`).
Group values use the most recent capture, as in Python. -/
def matchValue (ngroups : Nat) (matched : List Char) (gs : List (Nat × List Char)) : List Char :=
  if ngroups = 0 then matched
  else if ngroups = 1 then ((gs.find? (fun p => p.1 = 1)).map Prod.snd).getD []
  else ((List.range ngroups).map (fun i =>
    ((gs.find? (fun p => p.1 = i + 1)).map Prod.snd).getD [])).flatten

/-- One field type's inner loops of `FieldExtractor._extract_with_regex`:
all patterns in priority order, duplicate suppression via a seen-value set. -/
def extractFieldType (text : List Char) (field_name : String) (pats : List Pat) :
    List ExtractedField :=
  (pats.foldl (fun (acc : List ExtractedField × List (List Char)) pat =>
    (reFindAll pat.re text).foldl (fun acc m =>
      let value := pyStripL (matchValue pat.ngroups m.1 m.2)
      if value.length < 2 then acc
      else
        let value := normalize_value field_name value
        if acc.2.contains value then acc
        else
          (acc.1 ++ [{ name := field_name, value := .str (String.mk value),
                       confidence := calculate_regex_confidence field_name value,
                       source_span := some (String.mk m.1) }],
           value :: acc.2)) acc) ([], [])).1

/-- `FieldExtractor._extract_with_regex`. -/
def extract_with_regex (text : List Char) : List ExtractedField :=
  (EXTRACTION_PATTERNS.map (fun p => extractFieldType text p.1 p.2)).flatten

/-- `FieldExtractor._extract_priority_keywords`. -/
def extract_priority_keywords (text : List Char) : List String :=
  let tl := lowerL text
  PRIORITY_KEYWORDS.filter (fun kw => containsSub (lowerL kw.data) tl)

/-- `FieldExtractor._merge_fields`: dict keyed by name, regex fields first
(later same-name regex fields overwrite earlier), then AI fields kept only
when strictly more confident. -/
def dictUpsert (d : List (String × ExtractedField)) (f : ExtractedField) :
    List (String × ExtractedField) :=
  if d.any (fun p => p.1 = f.name) then
    d.map (fun p => if p.1 = f.name then (p.1, f) else p)
  else d ++ [(f.name, f)]

def merge_fields (regex_fields ai_fields : List ExtractedField) : List ExtractedField :=
  let merged := regex_fields.foldl dictUpsert []
  let merged := ai_fields.foldl (fun d af =>
    match (d.find? (fun p => p.1 = af.name)).map Prod.snd with
    | some existing => if Frac.lt existing.confidence af.confidence then dictUpsert d af else d
    | none => d ++ [(af.name, af)]) merged
  merged.map Prod.snd

/-- `FieldExtractor._validate_fields`. -/
def validate_fields (fields : List ExtractedField) : List String :=
  (fields.filterMap (fun f =>
    match lookupAssoc VALIDATION_PATTERNS f.name with
    | some vp =>
      if reMatchFull vp f.value.pyStr.data then none
      else some ("Field " ++ String.singleton (Char.ofNat 39) ++ f.name ++
        String.singleton (Char.ofNat 39) ++ " with value " ++ String.singleton (Char.ofNat 39) ++
        f.value.pyStr ++ String.singleton (Char.ofNat 39) ++ " does not match expected format")
    | none => none))

/-- `FieldExtractor._find_missing_required`. -/
def find_missing_required (fields : List ExtractedField) (category : Option String) :
    List String :=
  match category with
  | none => []
  | some cat =>
    match lookupAssoc CATEGORY_REQUIRED_FIELDS cat with
    | none => []
    | some required => required.filter (fun r => !(fields.any (fun f => f.name = r)))

/-! ## Classifier (`app/services/workflow/classifiers.py`)

The YAML override files (`config/categories.yaml`, `config/severities.yaml`)
are not present in the repository, so the classifier uses the built-in
default tables. -/

def CATEGORY_KEYWORDS : List (String × List String) :=
  [ ("technical", ["error", "bug", "crash", "not working", "failed", "broken", "issue", "problem"]),
    ("billing", ["charge", "refund", "invoice", "payment", "subscription", "overcharged", "bill", "cost"]),
    ("account", ["login", "password", "account", "access", "locked", "credentials", "sign in", "signin", "signup"]),
    ("feature_request", ["wish", "request", "feature", "enhancement", "suggest", "idea", "would like", "need"]),
    ("bug_report", ["bug", "defect", "broken", "incorrect", "unexpected", "wrong", "does not work"]),
    ("general", ["question", "help", "how to", "information", "inquiry", "wondering"]) ]

def SEVERITY_INDICATORS : List (String × List String) :=
  [ ("critical", ["urgent", "asap", "critical", "down", "emergency", "production", "immediately", "serious"]),
    ("high", ["important", "serious", "affecting", "quickly", "soon", "priority"]),
    ("medium", ["issue", "problem", "help", "when possible"]),
    ("low", ["minor", "small", "suggestion", "curious", "wondering", "sometime"]) ]

def VALID_CATEGORIES : List String :=
  ["technical", "billing", "account", "feature_request", "bug_report", "general"]

def VALID_SEVERITIES : List String := ["critical", "high", "medium", "low"]

/-- `TicketClassifier._match_category`.  Python's `max(keys, key=...)`
returns the first key attaining the maximum in dict-iteration order. -/
def match_category (text : List Char) : String × Frac × List String :=
  let scores : List (String × Frac × List String) :=
    CATEGORY_KEYWORDS.filterMap (fun p =>
      let hits := p.2.filter (fun kw => searchWordBounded (lowerL kw.data) text)
      if hits ≠ [] then
        let matchFrac : Frac := Frac.ratioN hits.length p.2.length
        some (p.1,
          Frac.fmin (q 95 100)
            (((q 1 2).add (matchFrac.mul (q 45 100))).add
              ((Frac.ofNat hits.length).mul (q 5 100))),
          hits)
      else none)
  match scores.foldl (fun best x =>
      match best with
      | none => some x
      | some b => if Frac.lt b.2.1 x.2.1 then some x else some b) none with
  | some best => best
  | none => ("general", q 3 10, [])

/-- Index into `VALID_SEVERITIES` (99 for unknown keys), as in the source's
sort key. -/
def sevIndex (s : String) : Nat := ((VALID_SEVERITIES.indexOf? s).getD 99)

/-- `TicketClassifier._match_severity`.  The source sorts candidates by the
pair `(confidence, VALID_SEVERITIES.index(k))` in descending order and takes
the head, so ties on confidence go to the LARGER index, i.e. the lower
severity level. -/
def match_severity (text : List Char) : String × Frac × List String :=
  let scores : List (String × Frac × List String) :=
    SEVERITY_INDICATORS.filterMap (fun p =>
      let hits := p.2.filter (fun kw => searchWordBounded (lowerL kw.data) text)
      if hits ≠ [] then
        let matchFrac : Frac :=
          if p.2.length = 0 then Frac.ofNat 0 else Frac.ratioN hits.length p.2.length
        some (p.1, Frac.fmin (q 9 10) ((q 4 10).add (matchFrac.mul (q 5 10))), hits)
      else none)
  match scores.foldl (fun best x =>
      match best with
      | none => some x
      | some b =>
        if Frac.lt b.2.1 x.2.1 || (x.2.1 = b.2.1 && sevIndex x.1 > sevIndex b.1) then some x
        else some b) none with
  | some best => best
  | none => ("medium", q 1 2, [])

/-- `TicketClassifier._find_secondary_categories`. -/
def find_secondary_categories (text : List Char) (primary_category : String) : List String :=
  ((CATEGORY_KEYWORDS.filter (fun p => p.1 ≠ primary_category &&
    2 ≤ (p.2.filter (fun kw => searchWordBounded (lowerL kw.data) text)).length)).map
      Prod.fst).take 2

/-- `TicketClassifier._generate_reasoning`. -/
def generate_reasoning (category severity : String)
    (keywords_matched urgency_indicators : List String) : String :=
  let parts :=
    (if keywords_matched ≠ [] then
      ["Matched keywords: " ++ String.intercalate ", " (keywords_matched.take 3)] else []) ++
    (if urgency_indicators ≠ [] then
      ["Urgency indicators: " ++ String.intercalate ", " (urgency_indicators.take 2)] else []) ++
    ["Classified as " ++ category ++ " with " ++ severity ++ " severity"]
  String.intercalate ". " parts ++ "."

/-- `TicketClassifier._classify_with_rules`. -/
def classify_with_rules (subject body : String) : ClassificationResult :=
  let combined_text := lowerL (subject ++ " " ++ body).data
  let c := match_category combined_text
  let s := match_severity combined_text
  let secondary := find_secondary_categories combined_text c.1
  { category := c.1, category_confidence := c.2.1,
    severity := s.1, severity_confidence := s.2.1,
    secondary_categories := secondary,
    reasoning := some (generate_reasoning c.1 s.1 c.2.2 s.2.2),
    keywords_matched := c.2.2, urgency_indicators := s.2.2 }

/-! ## Router (`app/services/workflow/routers.py`)

`config/routing_rules.yaml` is not present in the repository, so the router
uses `DEFAULT_TEAMS` and `DEFAULT_ESCALATION_PATHS`. -/

structure TeamDef where
  categories : List String := []
  severities : List String := []
  description : String := ""
  priority_modifier : Int := 0
deriving Repr, DecidableEq

def DEFAULT_TEAMS : List (String × TeamDef) :=
  [ ("technical_support",
     { categories := ["technical", "bug_report"],
       description := "Technical issues, bugs, errors" }),
    ("billing_team",
     { categories := ["billing"],
       description := "Payment, subscription, refund issues" }),
    ("account_management",
     { categories := ["account"],
       description := "Account access, security, permissions" }),
    ("product_team",
     { categories := ["feature_request"],
       description := "Feature requests, product feedback", priority_modifier := 1 }),
    ("escalation_team",
     { severities := ["critical"],
       description := "Critical issues requiring senior review", priority_modifier := -1 }) ]

def DEFAULT_ESCALATION_PATHS : List (String × List String) :=
  [ ("technical_support", ["senior_technical", "engineering_team"]),
    ("billing_team", ["billing_manager", "finance_team"]),
    ("account_management", ["account_manager", "security_team"]),
    ("product_team", ["product_manager"]),
    ("escalation_team", ["senior_management"]) ]

def CATEGORY_TEAM_MAP : List (String × String) :=
  [ ("technical", "technical_support"), ("billing", "billing_team"),
    ("account", "account_management"), ("feature_request", "product_team"),
    ("bug_report", "technical_support"), ("general", "technical_support") ]

def SEVERITY_PRIORITY_MAP : List (String × String) :=
  [ ("critical", "urgent"), ("high", "high"), ("medium", "normal"), ("low", "low") ]

/-- `TicketRouter._find_team_by_category`. -/
def find_team_by_category (category : String) : String :=
  match DEFAULT_TEAMS.find? (fun p => p.1 ≠ "escalation_team" && p.2.categories.contains category) with
  | some p => p.1
  | none => (lookupAssoc CATEGORY_TEAM_MAP category).getD "technical_support"

def priority_levels : List String := ["low", "normal", "high", "urgent"]

/-- `TicketRouter._apply_priority_modifier`. -/
def apply_priority_modifier (team priority _severity : String) : String :=
  let modifier := ((lookupAssoc DEFAULT_TEAMS team).map TeamDef.priority_modifier).getD 0
  let current_idx : Int := ((priority_levels.indexOf? priority).map (Int.ofNat)).getD 1
  let new_idx := max 0 (min ((priority_levels.length : Int) - 1) (current_idx + modifier))
  (priority_levels.get? new_idx.toNat).getD "normal"

/-- `TicketRouter._find_alternative_teams`. -/
def find_alternative_teams (category primary_team : String) : List String :=
  let alternatives := ((DEFAULT_TEAMS.filter (fun p =>
    p.1 ≠ primary_team && p.1 ≠ "escalation_team" && p.2.categories.contains category)).map
      Prod.fst)
  let alternatives :=
    if alternatives = [] then
      if primary_team ≠ "technical_support" then ["technical_support"] else []
    else alternatives
  alternatives.take 2

/-- `TicketRouter._build_reasoning`. -/
def build_reasoning (team category severity : String)
    (extracted_fields : List (String × FieldValue)) : String :=
  let parts := ["Routed to " ++ team]
  let parts := parts ++
    (match lookupAssoc DEFAULT_TEAMS team with
     | some td => if td.description ≠ "" then ["(" ++ td.description ++ ")"] else []
     | none => [])
  let parts := parts ++ ["based on " ++ category ++ " category"]
  let parts := parts ++
    (if severity = "critical" || severity = "high" then ["with " ++ severity ++ " priority"] else [])
  let parts := parts ++
    (if extracted_fields ≠ [] then
      (let field_names := (extracted_fields.map Prod.fst).take 3
       if field_names ≠ [] then
         ["and detected fields: " ++ String.intercalate ", " field_names]
       else [])
     else [])
  String.intercalate " " parts ++ "."

/-- `TicketRouter._calculate_confidence`. -/
def calculate_confidence (category severity : String) : Frac :=
  let base : Frac := q 8 10
  let base :=
    if DEFAULT_TEAMS.any (fun p => p.2.categories.contains category) then base.add (q 1 10)
    else base
  let base := if severity = "critical" || severity = "high" then base.add (q 5 100) else base
  Frac.fmin (q 95 100) base

/-- `TicketRouter._build_routing_decision` (used by the critical branch). -/
def build_routing_decision (team priority _category _severity reason : String) : RoutingDecision :=
  { team := team, priority := priority, reasoning := reason,
    alternative_teams := ["technical_support"],
    escalation_path := lookupAssoc DEFAULT_ESCALATION_PATHS team,
    confidence := q 95 100 }

/-- `TicketRouter.route`. -/
def route (_subject _body category severity : String)
    (extracted_fields : List (String × FieldValue)) : RoutingDecision :=
  if severity = "critical" then
    build_routing_decision "escalation_team" "urgent" category severity
      "Critical severity requires escalation team"
  else
    let best_team := find_team_by_category category
    let priority := (lookupAssoc SEVERITY_PRIORITY_MAP severity).getD "normal"
    let priority := apply_priority_modifier best_team priority severity
    let alternative_teams := find_alternative_teams category best_team
    let reasoning := build_reasoning best_team category severity extracted_fields
    { team := best_team, priority := priority, reasoning := reasoning,
      alternative_teams := alternative_teams,
      escalation_path := lookupAssoc DEFAULT_ESCALATION_PATHS best_team,
      confidence := calculate_confidence category severity }

/-! ## Validator (`app/services/workflow/validators.py`)

Prompt-injection warnings are computed by the source but dropped by the
orchestrator's `_add_step_result` (its `warnings` argument is unused), so no
observable datum depends on them and they are omitted from the embedding. -/

structure ValidationResult where
  is_valid : Bool := true
  errors : List String := []
  sanitized_subject : Option String := none
  sanitized_body : Option String := none
deriving Repr, DecidableEq

def MAX_SUBJECT_LENGTH : Nat := 500
def MAX_BODY_LENGTH : Nat := 50000

/-- `InputValidator._sanitize_text`: strip control characters (keeping
newline and tab), collapse whitespace runs to single spaces, trim. -/
def isStrippedControl (c : Char) : Bool :=
  (c.toNat ≤ 8) || c.toNat = 11 || c.toNat = 12 ||
  (14 ≤ c.toNat && c.toNat ≤ 31) || (127 ≤ c.toNat && c.toNat ≤ 159)

def collapseSpacesAux : List Char → Bool → List Char
  | [], _ => []
  | c :: rest, inRun =>
    if isPySpace c then
      if inRun then collapseSpacesAux rest true else ' ' :: collapseSpacesAux rest true
    else c :: collapseSpacesAux rest false

/-- `re.sub(r"\s+", " ", s)`: collapse each whitespace run to one space. -/
def collapseSpaces (l : List Char) : List Char := collapseSpacesAux l false

def sanitize_text (text : String) : String :=
  if text = "" then ""
  else String.mk (pyStripL (collapseSpaces (text.data.filter (fun c => !isStrippedControl c))))

/-- `InputValidator.validate` (error accumulation across subject and body). -/
def validate (ticket : TicketInput) : ValidationResult :=
  let subjectCheck : Bool × List String :=
    if ticket.subject = "" || pyStrip ticket.subject = "" then
      (false, ["Subject cannot be empty"])
    else if MAX_SUBJECT_LENGTH < ticket.subject.length then
      (false, ["Subject exceeds maximum length of 500"])
    else (true, [])
  let bodyCheck : Bool × List String :=
    if ticket.body = "" || pyStrip ticket.body = "" then
      (false, ["Body cannot be empty"])
    else if MAX_BODY_LENGTH < ticket.body.length then
      (false, ["Body exceeds maximum length of 50000"])
    else (true, [])
  { is_valid := subjectCheck.1 && bodyCheck.1,
    errors := subjectCheck.2 ++ bodyCheck.2,
    sanitized_subject := some (sanitize_text ticket.subject),
    sanitized_body := some (sanitize_text ticket.body) }

/-! ## Generator (`app/services/workflow/generators.py`) -/

structure RespTemplate where
  greeting : String
  acknowledgment : String
  explanation : String
  action_items : List String
  timeline : String
  closing : String
deriving Repr, DecidableEq

def RESPONSE_TEMPLATES : List (String × RespTemplate) :=
  [ ("technical",
     { greeting := "Hello{customer_name},",
       acknowledgment := "Thank you for reaching out about the technical issue you're experiencing.",
       explanation := "Our technical team has been notified and is investigating the problem.",
       action_items :=
         [ "Please try clearing your browser cache and cookies",
           "Ensure you're using the latest version of the application",
           "If the issue persists, please provide any error messages you see" ],
       timeline := "We aim to respond within {response_time}.",
       closing := "Best regards,\n{support_signature}" }),
    ("billing",
     { greeting := "Dear{customer_name},",
       acknowledgment := "Thank you for contacting us about your billing inquiry.",
       explanation := "Our billing team will review your request and get back to you shortly.",
       action_items :=
         [ "Please have your order ID ready for verification",
           "Check your account settings for recent transactions" ],
       timeline := "We typically resolve billing inquiries within {response_time}.",
       closing := "Sincerely,\n{billing_signature}" }),
    ("account",
     { greeting := "Hi{customer_name},",
       acknowledgment := "Thank you for reaching out about your account.",
       explanation := "Our account management team is here to help you with your request.",
       action_items :=
         [ "Please verify your email address associated with the account",
           "For security purposes, do not share your password" ],
       timeline := "We'll respond to your request within {response_time}.",
       closing := "Best regards,\n{support_signature}" }),
    ("feature_request",
     { greeting := "Hello{customer_name},",
       acknowledgment := "Thank you for taking the time to share your feature request with us.",
       explanation := "We value your feedback and will consider it for future product development.",
       action_items :=
         [ "Your request has been logged in our feature tracking system",
           "We'll notify you if this feature gets implemented" ],
       timeline := "Product updates are typically shared in our monthly newsletter.",
       closing := "Thank you for helping us improve!\n{product_signature}" }),
    ("bug_report",
     { greeting := "Hi{customer_name},",
       acknowledgment := "Thank you for reporting this issue. We appreciate your help in improving our product.",
       explanation := "Our engineering team has been notified and will investigate the bug.",
       action_items :=
         [ "If possible, please provide steps to reproduce the issue",
           "Include any screenshots or error messages if available" ],
       timeline := "Bug reports are typically addressed within {response_time}.",
       closing := "Best regards,\n{engineering_signature}" }),
    ("general",
     { greeting := "Hello{customer_name},",
       acknowledgment := "Thank you for contacting our support team.",
       explanation := "We're here to help and will address your inquiry as soon as possible.",
       action_items :=
         [ "Please provide any additional details that might help us assist you better" ],
       timeline := "We aim to respond within {response_time}.",
       closing := "Best regards,\n{support_signature}" }) ]

def RESPONSE_TIMES : List (String × String) :=
  [("critical", "1 hour"), ("high", "4 hours"), ("medium", "24 hours"), ("low", "72 hours")]

def TEAM_SIGNATURES : List (String × String) :=
  [ ("technical_support", "Technical Support Team"), ("billing_team", "Billing & Payments Team"),
    ("account_management", "Account Management Team"), ("product_team", "Product Team"),
    ("escalation_team", "Senior Support Team"), ("general_support", "Customer Support Team") ]

/-- `ResponseGenerator._build_full_response`. -/
def build_full_response (greeting acknowledgment explanation : String)
    (action_items : List String) (timeline closing : String) : String :=
  let sections := [greeting, "", acknowledgment, ""]
  let sections := sections ++ (if explanation ≠ "" then [explanation, ""] else [])
  let sections := sections ++
    (if action_items ≠ [] then
      ["Here are some steps you can take:"] ++
      ((List.range action_items.length).map (fun i =>
        "  " ++ toString (i + 1) ++ ". " ++ (action_items.get? i).getD "")) ++ [""]
     else [])
  let sections := sections ++ [timeline, "", closing]
  String.intercalate "\n" sections

/-- `ResponseGenerator._generate_with_template`. -/
def generate_with_template (category severity : String) (customer_name : Option String)
    (tone : String) : ResponseDraft :=
  let template := (lookupAssoc RESPONSE_TEMPLATES category).getD
    ((lookupAssoc RESPONSE_TEMPLATES "general").getD
      { greeting := "", acknowledgment := "", explanation := "",
        action_items := [], timeline := "", closing := "" })
  let response_time := (lookupAssoc RESPONSE_TIMES severity).getD "24 hours"
  let name_suffix := match customer_name with
    | some n => if n = "" then "" else " " ++ n
    | none => ""
  let signature := (lookupAssoc TEAM_SIGNATURES "general_support").getD "Customer Support Team"
  let greeting := template.greeting.replace "{customer_name}" name_suffix
  let acknowledgment := template.acknowledgment
  let explanation := template.explanation
  let action_items := template.action_items
  let timeline := template.timeline.replace "{response_time}" response_time
  let closing := ((((template.closing.replace "{support_signature}" signature).replace
    "{billing_signature}" signature).replace "{engineering_signature}" signature).replace
    "{product_signature}" signature)
  let requires_escalation := severity = "critical" || severity = "high"
  let content := build_full_response greeting acknowledgment explanation action_items timeline closing
  { content := content, tone := tone, template_used := some (category ++ "_template"),
    suggested_actions := action_items, requires_escalation := requires_escalation,
    greeting := some greeting, acknowledgment := some acknowledgment,
    explanation := some explanation, action_items := action_items,
    timeline := some timeline, closing := some closing }

/-- `ResponseGenerator._fields_to_dict` (first occurrence wins). -/
def fields_to_dict (fields : List ExtractedField) : List (String × FieldValue) :=
  fields.foldl (fun d f => if d.any (fun p => p.1 = f.name) then d else d ++ [(f.name, f.value)]) []

/-! ## Exceptions, the AI collaborator, and configuration

Python exceptions are modelled by `Exc`.  The AI service is an oracle whose
calls may fail; the stage components guard every oracle call with their own
`try/except`, exactly as in the source. -/

inductive Exc where
  | timeout : Exc
  | err : String → Exc
deriving Repr, DecidableEq

/-- The message `execute`'s two handlers attach to the error response:
`asyncio.TimeoutError` yields the fixed timeout text, any other exception
yields `str(e)`. -/
def excMessage : Exc → String
  | .timeout => "Workflow execution timeout"
  | .err m => m

/-- Shape of `ai_service.generate_response`'s dict result, read with
`result.get(...)` in `_generate_with_ai`. -/
structure AIGenResult where
  full_response : Option String := none
  action_items : Option (List String) := none
  requires_escalation : Option Bool := none
  greeting : Option String := none
  acknowledgment : Option String := none
  explanation : Option String := none
  timeline : Option String := none
  closing : Option String := none
deriving Repr, DecidableEq

/-- The AI collaborator: each method may return a result or raise. -/
structure AIOracle where
  classify_ticket : String → String → Except Exc ClassificationResult
  extract_fields : String → String → String → Except Exc ExtractionResult
  generate_response : String → String → String → String → List (String × FieldValue) →
    Option String → String → Except Exc AIGenResult

/-- Orchestrator-level configuration: the constructor's `enable_ai`
argument, the `settings` feature flags read by the stage calls, the
confidence threshold, and the AI service's current total token usage. -/
structure OrchConfig where
  enable_ai : Bool := true
  enable_ai_classification : Bool := true
  enable_ai_extraction : Bool := true
  enable_response_generation : Bool := true
  ai_confidence_threshold : Frac := q 3 5
  token_total : Nat := 0
deriving Repr, DecidableEq

/-- `TicketClassifier.classify`.  The classifier is constructed by the
orchestrator with `ai_service = ai_service if enable_ai else None`, so the
AI branch additionally requires `cfg.enable_ai`; any oracle exception and
any below-threshold confidence fall through to the rule-based path. -/
def classify (cfg : OrchConfig) (o : AIOracle) (subject body : String)
    (use_ai : Option Bool) : ClassificationResult :=
  let should_use_ai := use_ai.getD cfg.enable_ai_classification
  if should_use_ai && cfg.enable_ai then
    match o.classify_ticket subject body with
    | .ok result =>
      if Frac.le cfg.ai_confidence_threshold result.category_confidence then result
      else classify_with_rules subject body
    | .error _ => classify_with_rules subject body
  else classify_with_rules subject body

/-- `FieldExtractor.extract`. -/
def extract (cfg : OrchConfig) (o : AIOracle) (subject body : String)
    (category : Option String) (use_ai : Option Bool) : ExtractionResult :=
  let combined_text := (subject ++ "\n" ++ body).data
  let should_use_ai := use_ai.getD cfg.enable_ai_extraction
  let fields := extract_with_regex combined_text
  let priority_kws := extract_priority_keywords combined_text
  let fields :=
    if priority_kws ≠ [] then
      fields ++ [{ name := "priority_keywords", value := .strList priority_kws,
                   confidence := q 9 10,
                   source_span := some (String.intercalate ", " priority_kws) }]
    else fields
  let fields :=
    if should_use_ai && cfg.enable_ai then
      match o.extract_fields subject body (category.getD "general") with
      | .ok res => merge_fields fields res.fields
      | .error _ => fields
    else fields
  { fields := fields,
    validation_errors := validate_fields fields,
    missing_required := find_missing_required fields category }

/-- `ResponseGenerator._generate_with_ai`. -/
def generate_with_ai (o : AIOracle) (subject body category severity : String)
    (extracted_fields : List (String × FieldValue)) (customer_name : Option String)
    (tone : String) : Except Exc ResponseDraft :=
  match o.generate_response subject body category severity extracted_fields customer_name tone with
  | .error e => .error e
  | .ok r =>
    .ok { content := r.full_response.getD "", tone := tone, template_used := none,
          suggested_actions := r.action_items.getD [],
          requires_escalation := r.requires_escalation.getD false,
          greeting := r.greeting, acknowledgment := r.acknowledgment,
          explanation := r.explanation, action_items := r.action_items.getD [],
          timeline := r.timeline, closing := r.closing }

/-- `ResponseGenerator.generate`. -/
def generate (cfg : OrchConfig) (o : AIOracle) (subject body category severity : String)
    (extracted_fields : List ExtractedField) (customer_name : Option String)
    (tone : String) (use_ai : Option Bool) : ResponseDraft :=
  let should_use_ai := use_ai.getD cfg.enable_response_generation
  let extracted_dict := fields_to_dict extracted_fields
  if should_use_ai && cfg.enable_ai then
    match generate_with_ai o subject body category severity extracted_dict customer_name tone with
    | .ok d => d
    | .error _ => generate_with_template category severity customer_name tone
  else generate_with_template category severity customer_name tone

/-! ## Orchestrator (`app/services/workflow/orchestrator.py`)

`WorkflowContext.calls` is ghost instrumentation recording the
`(subject, body)` arguments of each collaborator stage invocation; it has no
effect on any computed result.  `ticket_id` (a uuid in the source) is a
parameter.  The cooperative parallel group (`asyncio.gather` with
`return_exceptions=True`) is modelled by running the scheduled tasks in
task-creation order; the embedded stage functions are total (each stage
catches its own collaborator errors), so no task exception can occur, and
step ordering is not relied upon by any theorem.  The `except` branches of
the per-stage wrappers in the source are unreachable in this model for the
same reason and are not translated.  Timeouts/cancellations delivered at
`execute`'s own await points are modelled by `FaultEnv`. -/

structure StageCall where
  stage : String
  subject : String
  body : String
deriving Repr, DecidableEq

structure WorkflowContext where
  ticket_id : String
  ticket : TicketInput
  options : WorkflowOptions
  sanitized_ticket : Option TicketInput := none
  classification : Option ClassificationResult := none
  extraction : Option ExtractionResult := none
  response : Option ResponseDraft := none
  routing : Option RoutingDecision := none
  duplicate_of : Option String := none
  similarity_score : Option Frac := none
  steps : List WorkflowStepResult := []
  errors : List String := []
  calls : List StageCall := []
deriving Repr, DecidableEq

/-- Exceptions the environment may deliver at the awaited stage boundaries
inside `execute` (e.g. an enclosing `asyncio` deadline firing). -/
structure FaultEnv where
  at_validation : Option Exc := none
  at_group : Option Exc := none
  at_response : Option Exc := none
  at_routing : Option Exc := none
deriving Repr, DecidableEq

def noFaults : FaultEnv := {}

def initCtx (tid : String) (t : TicketInput) (opts : WorkflowOptions) : WorkflowContext :=
  { ticket_id := tid, ticket := t, options := opts }

/-- `WorkflowOrchestrator._add_step_result` (wall-clock data dropped;
the `warnings` argument of the source is unused there). -/
def add_step_result (ctx : WorkflowContext) (r : WorkflowStepResult) : WorkflowContext :=
  { ctx with steps := ctx.steps ++ [r] }

/-- Python `x or default` for optional strings (`""` is falsy). -/
def pyOrStr (o : Option String) (dflt : String) : String :=
  match o with
  | some s => if s = "" then dflt else s
  | none => dflt

/-- `WorkflowOrchestrator._execute_validation`. -/
def execute_validation (ctx : WorkflowContext) : WorkflowContext :=
  let result := validate ctx.ticket
  if result.is_valid then
    let ctx := { ctx with
      sanitized_ticket := some
        { subject := pyOrStr result.sanitized_subject ctx.ticket.subject,
          body := pyOrStr result.sanitized_body ctx.ticket.body,
          customer_id := ctx.ticket.customer_id,
          customer_email := ctx.ticket.customer_email,
          metadata := ctx.ticket.metadata } }
    add_step_result ctx { step_name := "validation", status := "completed" }
  else
    let ctx := { ctx with errors := ctx.errors ++ result.errors }
    add_step_result ctx
      { step_name := "validation", status := "failed",
        error := some (String.intercalate "; " result.errors) }

/-- `WorkflowOrchestrator._check_duplicate`: the placeholder implementation
returns `(False, None, None)` unconditionally. -/
def check_duplicate (_ctx : WorkflowContext) : Bool × Option String × Option Frac :=
  (false, none, none)

/-- `WorkflowOrchestrator._execute_duplicate_detection`. -/
def execute_duplicate_detection (ctx : WorkflowContext) : WorkflowContext :=
  let r := check_duplicate ctx
  let ctx := if r.1 then { ctx with duplicate_of := r.2.1, similarity_score := r.2.2 } else ctx
  add_step_result ctx { step_name := "duplicate_detection", status := "completed" }

/-- `WorkflowOrchestrator._execute_classification` (the `try` path; the
embedded `classify` is total, so the `except` path is unreachable). -/
def execute_classification (cfg : OrchConfig) (o : AIOracle) (ctx : WorkflowContext) :
    WorkflowContext :=
  let ticket := ctx.sanitized_ticket.getD ctx.ticket
  let c := classify cfg o ticket.subject ticket.body
    (some (cfg.enable_ai && cfg.enable_ai_classification))
  let ctx := { ctx with
    classification := some c,
    calls := ctx.calls ++
      [{ stage := "classification", subject := ticket.subject, body := ticket.body }] }
  add_step_result ctx
    { step_name := "classification", status := "completed",
      tokens_used := some cfg.token_total }

/-- `WorkflowOrchestrator._execute_extraction` (the `try` path). -/
def execute_extraction (cfg : OrchConfig) (o : AIOracle) (ctx : WorkflowContext) :
    WorkflowContext :=
  let ticket := ctx.sanitized_ticket.getD ctx.ticket
  let category := (ctx.classification.map ClassificationResult.category).getD "general"
  let ex := extract cfg o ticket.subject ticket.body (some category)
    (some (cfg.enable_ai && cfg.enable_ai_extraction))
  let ctx := { ctx with
    extraction := some ex,
    calls := ctx.calls ++
      [{ stage := "extraction", subject := ticket.subject, body := ticket.body }] }
  add_step_result ctx
    { step_name := "extraction", status := "completed",
      tokens_used := some cfg.token_total }

/-- Synthetic default classification for `skip_classification`. -/
def skippedClassification : ClassificationResult :=
  { category := "general", category_confidence := Frac.ofNat 1, severity := "medium",
    severity_confidence := Frac.ofNat 1, reasoning := some "Classification skipped" }

/-- `WorkflowOrchestrator._execute_parallel_steps`: defaults for skipped
stages are assigned while the task list is built, then the gathered tasks
run (modelled in task-creation order). -/
def execute_parallel_steps (cfg : OrchConfig) (o : AIOracle) (ctx : WorkflowContext) :
    WorkflowContext :=
  let options := ctx.options
  let ctx := if options.skip_classification then
      { ctx with classification := some skippedClassification } else ctx
  let ctx := if options.skip_extraction then
      { ctx with extraction := some {} } else ctx
  let ctx := if options.enable_duplicate_detection then execute_duplicate_detection ctx else ctx
  let ctx := if !options.skip_classification then execute_classification cfg o ctx else ctx
  let ctx := if !options.skip_extraction then execute_extraction cfg o ctx else ctx
  ctx

/-- `WorkflowOrchestrator._execute_sequential_steps`. -/
def execute_sequential_steps (cfg : OrchConfig) (o : AIOracle) (ctx : WorkflowContext) :
    WorkflowContext :=
  let options := ctx.options
  let ctx := if options.enable_duplicate_detection then execute_duplicate_detection ctx else ctx
  let ctx := if !options.skip_classification then execute_classification cfg o ctx
             else { ctx with classification := some skippedClassification }
  let ctx := if !options.skip_extraction then execute_extraction cfg o ctx
             else { ctx with extraction := some {} }
  ctx

/-- `WorkflowOrchestrator._execute_response_generation` (the `try` path). -/
def execute_response_generation (cfg : OrchConfig) (o : AIOracle) (ctx : WorkflowContext) :
    WorkflowContext :=
  let ticket := ctx.sanitized_ticket.getD ctx.ticket
  let classification := ctx.classification
  let extraction := ctx.extraction
  let customer_name : Option String :=
    match ticket.customer_email with
    | some e => if e = "" then none else some (splitFirst '@' e)
    | none => none
  let customer_name :=
    match extraction with
    | some ex =>
      if ex.fields ≠ [] then
        match ex.fields.find? (fun f => f.name = "account_email") with
        | some ef =>
          if ef.value.truthy then some (splitFirst '@' ef.value.pyStr) else customer_name
        | none => customer_name
      else customer_name
    | none => customer_name
  let resp := generate cfg o ticket.subject ticket.body
    ((classification.map ClassificationResult.category).getD "general")
    ((classification.map ClassificationResult.severity).getD "medium")
    ((extraction.map ExtractionResult.fields).getD [])
    customer_name ctx.options.response_tone
    (some (cfg.enable_ai && cfg.enable_response_generation))
  let ctx := { ctx with
    response := some resp,
    calls := ctx.calls ++
      [{ stage := "response_generation", subject := ticket.subject, body := ticket.body }] }
  add_step_result ctx
    { step_name := "response_generation", status := "completed",
      tokens_used := some cfg.token_total }

/-- Python dict assignment `d[k] = v` on an insertion-ordered dict. -/
def dictSet (d : List (String × FieldValue)) (k : String) (v : FieldValue) :
    List (String × FieldValue) :=
  if d.any (fun p => p.1 = k) then d.map (fun p => if p.1 = k then (p.1, v) else p)
  else d ++ [(k, v)]

/-- `WorkflowOrchestrator._execute_routing` (the `try` path; the router is
deterministic and total). -/
def execute_routing (ctx : WorkflowContext) : WorkflowContext :=
  let ticket := ctx.sanitized_ticket.getD ctx.ticket
  let classification := ctx.classification
  let extraction := ctx.extraction
  let extracted_dict :=
    match extraction with
    | some ex => ex.fields.foldl (fun d f => dictSet d f.name f.value) []
    | none => []
  let r := route ticket.subject ticket.body
    ((classification.map ClassificationResult.category).getD "general")
    ((classification.map ClassificationResult.severity).getD "medium")
    extracted_dict
  let ctx := { ctx with
    routing := some r,
    calls := ctx.calls ++
      [{ stage := "routing", subject := ticket.subject, body := ticket.body }] }
  add_step_result ctx { step_name := "routing", status := "completed" }

/-- `WorkflowOrchestrator._build_success_response`. -/
def build_success_response (ctx : WorkflowContext) : WorkflowResponse :=
  { ticket_id := ctx.ticket_id,
    classification := ctx.classification.getD
      { category := "general", category_confidence := q 1 2, severity := "medium",
        severity_confidence := q 1 2, reasoning := some "Default classification" },
    extracted_fields := ctx.extraction.getD {},
    response_draft := ctx.response,
    routing := ctx.routing.getD
      { team := "technical_support", priority := "normal",
        reasoning := "Default routing", alternative_teams := [] },
    duplicate_of := ctx.duplicate_of,
    similarity_score := ctx.similarity_score,
    workflow_steps := ctx.steps }

/-- `WorkflowOrchestrator._build_error_response` (also returns the updated
context, since the source mutates `context.steps` in place). -/
def build_error_response (ctx : WorkflowContext) (error_message : String) :
    WorkflowResponse × WorkflowContext :=
  let ctx :=
    if ctx.steps.any (fun s => s.step_name = "error") then ctx
    else add_step_result ctx
      { step_name := "error", status := "failed", error := some error_message }
  ({ ticket_id := ctx.ticket_id,
     classification := ctx.classification.getD
       { category := "general", category_confidence := q 3 10, severity := "medium",
         severity_confidence := q 3 10,
         reasoning := some ("Error occurred: " ++ error_message) },
     extracted_fields := ctx.extraction.getD {},
     response_draft := none,
     routing := ctx.routing.getD
       { team := "technical_support", priority := "normal",
         reasoning := "Default routing due to error", alternative_teams := [] },
     duplicate_of := none, similarity_score := none,
     workflow_steps := ctx.steps }, ctx)

/-- Routing phase of `execute` (step 6 and final assembly). -/
def routing_phase (env : FaultEnv) (opts : WorkflowOptions) (ctx : WorkflowContext) :
    Except (Exc × WorkflowContext) (WorkflowResponse × WorkflowContext) :=
  if opts.skip_routing then .ok (build_success_response ctx, ctx)
  else
    match env.at_routing with
    | some e => .error (e, ctx)
    | none =>
      let ctx := execute_routing ctx
      .ok (build_success_response ctx, ctx)

/-- Response-generation phase of `execute` (step 5), then routing. -/
def response_phase (cfg : OrchConfig) (o : AIOracle) (env : FaultEnv)
    (opts : WorkflowOptions) (ctx : WorkflowContext) :
    Except (Exc × WorkflowContext) (WorkflowResponse × WorkflowContext) :=
  if opts.skip_response then routing_phase env opts ctx
  else
    match env.at_response with
    | some e => .error (e, ctx)
    | none => routing_phase env opts (execute_response_generation cfg o ctx)

/-- The body of `WorkflowOrchestrator.execute`'s `try` block.  A thrown
exception carries the context state at the throw point, as seen by the
source's `except` handlers. -/
def runBody (cfg : OrchConfig) (o : AIOracle) (env : FaultEnv)
    (tid : String) (t : TicketInput) (opts : WorkflowOptions) :
    Except (Exc × WorkflowContext) (WorkflowResponse × WorkflowContext) :=
  let ctx := initCtx tid t opts
  match env.at_validation with
  | some e => .error (e, ctx)
  | none =>
    let ctx := execute_validation ctx
    if ctx.errors ≠ [] && ctx.sanitized_ticket.isNone then
      .ok (build_error_response ctx "Validation failed")
    else
      match env.at_group with
      | some e => .error (e, ctx)
      | none =>
        let ctx := if opts.enable_parallel then execute_parallel_steps cfg o ctx
                   else execute_sequential_steps cfg o ctx
        response_phase cfg o env opts ctx

/-- `WorkflowOrchestrator.execute` as the source writes it: the `try` body
wrapped in the two `except` handlers, each returning an error response
built from the context at the throw point. -/
def executeExcept (cfg : OrchConfig) (o : AIOracle) (env : FaultEnv)
    (tid : String) (t : TicketInput) (opts : WorkflowOptions) :
    Except Exc WorkflowResponse :=
  match runBody cfg o env tid t opts with
  | .ok rc => .ok rc.1
  | .error (Exc.timeout, ctx) => .ok (build_error_response ctx "Workflow execution timeout").1
  | .error (Exc.err m, ctx) => .ok (build_error_response ctx m).1

/-- `execute` together with the final context (for the ghost call trace). -/
def execute_run (cfg : OrchConfig) (o : AIOracle) (env : FaultEnv)
    (tid : String) (t : TicketInput) (opts : WorkflowOptions) :
    WorkflowResponse × WorkflowContext :=
  match runBody cfg o env tid t opts with
  | .ok rc => rc
  | .error (e, ctx) => build_error_response ctx (excMessage e)

/-- `WorkflowOrchestrator.execute`. -/
def execute (cfg : OrchConfig) (o : AIOracle) (env : FaultEnv)
    (tid : String) (t : TicketInput) (opts : WorkflowOptions) : WorkflowResponse :=
  (execute_run cfg o env tid t opts).1

/-! ## Concrete inputs used by the theorems -/

/-- An AI collaborator whose every call raises. -/
def failingOracle : AIOracle :=
  { classify_ticket := fun _ _ => .error (.err "AI classification failed"),
    extract_fields := fun _ _ _ => .error (.err "AI extraction failed"),
    generate_response := fun _ _ _ _ _ _ _ => .error (.err "AI generation failed") }

/-- The body fixed by the extraction-determinism property (the apostrophe of
"hasn't" is assembled explicitly). -/
def c6_ticket_body : String :=
  "My order ORD-123456 hasn" ++ String.singleton (Char.ofNat 39) ++
    "t arrived, contact me at a@b.com"

/-- Extraction of that body with AI disabled (`use_ai=False`). -/
def c6_extraction : ExtractionResult :=
  extract {} failingOracle "" c6_ticket_body none (some false)

/-- A fault environment delivering a timeout at the parallel-group await. -/
def groupTimeoutEnv : FaultEnv := { at_group := some Exc.timeout }

/-- A valid ticket whose subject needs whitespace sanitization. -/
def sampleTicket : TicketInput := { subject := "Hi  there", body := "All ok" }

/-- A ticket with a whitespace-only subject. -/
def blankSubjectTicket : TicketInput := { subject := " ", body := "hello" }

/-- Options skipping classification and extraction. -/
def skipBothOptions : WorkflowOptions :=
  { skip_classification := true, skip_extraction := true }

/-- No step of the context is named `"error"` (only
`_build_error_response` creates such a step). -/
def NoErrStep (ctx : WorkflowContext) : Prop :=
  ∀ s ∈ ctx.steps, s.step_name ≠ "error"

/-- The duplicate-reference fields of the context are unset. -/
def DupNone (ctx : WorkflowContext) : Prop :=
  ctx.duplicate_of = none ∧ ctx.similarity_score = none

/-- The sanitized ticket produced by a successful validation stage
(`result.sanitized_subject or ticket.subject`, etc.). -/
def sanitized_ticket_of (t : TicketInput) : TicketInput :=
  { subject := pyOrStr (validate t).sanitized_subject t.subject,
    body := pyOrStr (validate t).sanitized_body t.body,
    customer_id := t.customer_id,
    customer_email := t.customer_email,
    metadata := t.metadata }

/-- `sanitized_ticket` is populated with the sanitized text and every
collaborator stage call recorded so far received that text. -/
def SanCalls (t : TicketInput) (ctx : WorkflowContext) : Prop :=
  ctx.sanitized_ticket = some (sanitized_ticket_of t) ∧
  ∀ c ∈ ctx.calls, c.subject = (sanitized_ticket_of t).subject ∧
    c.body = (sanitized_ticket_of t).body

/-- Skip-semantics invariant: once the parallel group has run, a skipped
classification/extraction carries its synthetic default result. -/
def SkipDefaults (ctx : WorkflowContext) : Prop :=
  (ctx.options.skip_classification = true →
    ctx.classification = some skippedClassification) ∧
  (ctx.options.skip_extraction = true →
    ctx.extraction = some ({} : ExtractionResult))

end TicketWorkflow

namespace TicketWorkflow

/-! ## Theorems for the claims -/

/-- C6 (counterexample): on the body fixed by the spec, extraction with AI
disabled yields NO field named `order_id` with value `"ORD-123456"`: the
first `order_id` regex captures only the digit group, so the value is
`"123456"`. -/
theorem c6_counterexample_order_id_value :
    c6_extraction.fields.any
      (fun f => f.name == "order_id" && f.value == FieldValue.str "ORD-123456") = false := by
  decide

/-- C6 (amended): extraction of that body with AI disabled yields a field
named `order_id` with value `"123456"` (source span `"ORD-123456"`) and a
field named `account_email` with value `"a@b.com"`. -/
theorem c6_extraction_determinism_amended :
    (c6_extraction.fields.any (fun f => f.name == "order_id" &&
      f.value == FieldValue.str "123456" && f.source_span == some "ORD-123456") = true) ∧
    (c6_extraction.fields.any (fun f => f.name == "account_email" &&
      f.value == FieldValue.str "a@b.com") = true) := by
  constructor
  · decide
  · decide

/-- C5 (code bug): on a text matching exactly one "high" indicator
(`important`) and one "low" indicator (`minor`), both severities score
`0.4 + (1/6)*0.5 = 29/60`, and the rule-based classifier returns `"low"`:
the source sorts tied severities by descending `VALID_SEVERITIES` index,
which prefers the objectively LOWER severity, contradicting both the spec
and the source's own comment ("preferring higher severity"). -/
theorem c5_severity_tie_prefers_lower :
    (classify_with_rules "important" "minor").severity = "low" ∧
    (classify_with_rules "important" "minor").severity_confidence = q 29 60 ∧
    (classify_with_rules "important" "minor").urgency_indicators = ["minor"] := by
  refine ⟨?_, ?_, ?_⟩ <;> decide

/-- C4 (counterexample): the critical-severity routing branch sets the
reasoning to `"Critical severity requires escalation team"`, not the string
`"critical severity requires escalation"` stated by the claim. -/
theorem c4_counterexample_reasoning :
    (route "s" "b" "billing" "critical" []).reasoning ≠
      "critical severity requires escalation" := by
  decide

/-- C4 (amended): for every subject, body, category and extracted-fields
map, routing with severity `"critical"` short-circuits to the fixed
decision: team `escalation_team`, priority `urgent`, confidence 0.95,
alternatives `["technical_support"]`, reasoning
`"Critical severity requires escalation team"`, and the escalation team's
configured escalation path — independent of the category (no category
lookup influences the result). -/
theorem c4_critical_routing (subject body category : String)
    (extracted_fields : List (String × FieldValue)) :
    route subject body category "critical" extracted_fields =
      { team := "escalation_team", priority := "urgent",
        reasoning := "Critical severity requires escalation team",
        alternative_teams := ["technical_support"],
        escalation_path := some ["senior_management"],
        confidence := q 95 100 } := by
  rfl

/-! ### Generic context-invariant machinery for the orchestrator walk -/

theorem pred_ite2 (P : WorkflowContext → Prop) (c : Prop) [Decidable c]
    (f g : WorkflowContext → WorkflowContext) (x : WorkflowContext)
    (hf : P x → P (f x)) (hg : P x → P (g x)) (h : P x) :
    P (if c then f x else g x) := by
  split
  · exact hf h
  · exact hg h

theorem pred_ite (P : WorkflowContext → Prop) (c : Prop) [Decidable c]
    (f : WorkflowContext → WorkflowContext) (x : WorkflowContext)
    (hf : P x → P (f x)) (h : P x) :
    P (if c then f x else x) :=
  pred_ite2 P c f id x hf (fun hh => hh) h

/-- Any context invariant preserved by the individual stages is preserved by
the parallel group. -/
theorem parallel_master (cfg : OrchConfig) (o : AIOracle)
    (P : WorkflowContext → Prop)
    (hdup : ∀ x, P x → P (execute_duplicate_detection x))
    (hcls : ∀ x, P x → P (execute_classification cfg o x))
    (hskipc : ∀ x, P x → P { x with classification := some skippedClassification })
    (hext : ∀ x, P x → P (execute_extraction cfg o x))
    (hskipe : ∀ x, P x → P { x with extraction := some ({} : ExtractionResult) })
    (x : WorkflowContext) (h : P x) : P (execute_parallel_steps cfg o x) := by
  unfold execute_parallel_steps
  dsimp only
  exact pred_ite P _ _ _ (hext _)
    (pred_ite P _ _ _ (hcls _)
      (pred_ite P _ _ _ (hdup _)
        (pred_ite P _ (fun y => { y with extraction := some ({} : ExtractionResult) }) _
          (hskipe _)
          (pred_ite P _ (fun y => { y with classification := some skippedClassification }) _
            (hskipc _) h))))

/-- Same for the sequential group. -/
theorem sequential_master (cfg : OrchConfig) (o : AIOracle)
    (P : WorkflowContext → Prop)
    (hdup : ∀ x, P x → P (execute_duplicate_detection x))
    (hcls : ∀ x, P x → P (execute_classification cfg o x))
    (hskipc : ∀ x, P x → P { x with classification := some skippedClassification })
    (hext : ∀ x, P x → P (execute_extraction cfg o x))
    (hskipe : ∀ x, P x → P { x with extraction := some ({} : ExtractionResult) })
    (x : WorkflowContext) (h : P x) : P (execute_sequential_steps cfg o x) := by
  unfold execute_sequential_steps
  dsimp only
  exact pred_ite2 P _ _ (fun y => { y with extraction := some ({} : ExtractionResult) }) _
    (hext _) (hskipe _)
    (pred_ite2 P _ _ (fun y => { y with classification := some skippedClassification }) _
      (hcls _) (hskipc _)
      (pred_ite P _ _ _ (hdup _) h))

theorem routing_phase_master (env : FaultEnv) (opts : WorkflowOptions)
    (x : WorkflowContext) (P : WorkflowContext → Prop)
    (hrt : ∀ y, P y → P (execute_routing y)) (h : P x) :
    (∀ e ctx2, routing_phase env opts x = .error (e, ctx2) → P ctx2) ∧
    (∀ r ctx2, routing_phase env opts x = .ok (r, ctx2) →
      P ctx2 ∧ r = build_success_response ctx2) := by
  unfold routing_phase
  constructor
  · intro e ctx2 hh
    split at hh
    · exact absurd hh (by simp)
    · cases har : env.at_routing with
      | some e0 =>
        rw [har] at hh
        simp only [Except.error.injEq, Prod.mk.injEq] at hh
        rw [← hh.2]
        exact h
      | none =>
        rw [har] at hh
        exact absurd hh (by simp)
  · intro r ctx2 hh
    split at hh
    · simp only [Except.ok.injEq, Prod.mk.injEq] at hh
      rw [← hh.1, ← hh.2]
      exact ⟨h, rfl⟩
    · cases har : env.at_routing with
      | some e0 =>
        rw [har] at hh
        exact absurd hh (by simp)
      | none =>
        rw [har] at hh
        simp only [Except.ok.injEq, Prod.mk.injEq] at hh
        rw [← hh.1, ← hh.2]
        exact ⟨hrt _ h, rfl⟩

theorem response_phase_master (cfg : OrchConfig) (o : AIOracle) (env : FaultEnv)
    (opts : WorkflowOptions) (x : WorkflowContext) (P : WorkflowContext → Prop)
    (hgen : ∀ y, P y → P (execute_response_generation cfg o y))
    (hrt : ∀ y, P y → P (execute_routing y)) (h : P x) :
    (∀ e ctx2, response_phase cfg o env opts x = .error (e, ctx2) → P ctx2) ∧
    (∀ r ctx2, response_phase cfg o env opts x = .ok (r, ctx2) →
      P ctx2 ∧ r = build_success_response ctx2) := by
  unfold response_phase
  constructor
  · intro e ctx2 hh
    split at hh
    · exact (routing_phase_master env opts x P hrt h).1 e ctx2 hh
    · cases har : env.at_response with
      | some e0 =>
        rw [har] at hh
        simp only [Except.error.injEq, Prod.mk.injEq] at hh
        rw [← hh.2]
        exact h
      | none =>
        rw [har] at hh
        exact (routing_phase_master env opts _ P hrt (hgen _ h)).1 e ctx2 hh
  · intro r ctx2 hh
    split at hh
    · exact (routing_phase_master env opts x P hrt h).2 r ctx2 hh
    · cases har : env.at_response with
      | some e0 =>
        rw [har] at hh
        exact absurd hh (by simp)
      | none =>
        rw [har] at hh
        exact (routing_phase_master env opts _ P hrt (hgen _ h)).2 r ctx2 hh

/-- Master walk over `runBody`: any invariant established by the validation
stage and preserved by every later stage holds at every throw point and at
the success exit. -/
theorem runBody_master (cfg : OrchConfig) (o : AIOracle) (env : FaultEnv)
    (tid : String) (t : TicketInput) (opts : WorkflowOptions)
    (P : WorkflowContext → Prop)
    (hval : P (execute_validation (initCtx tid t opts)))
    (hdup : ∀ x, P x → P (execute_duplicate_detection x))
    (hcls : ∀ x, P x → P (execute_classification cfg o x))
    (hskipc : ∀ x, P x → P { x with classification := some skippedClassification })
    (hext : ∀ x, P x → P (execute_extraction cfg o x))
    (hskipe : ∀ x, P x → P { x with extraction := some ({} : ExtractionResult) })
    (hgen : ∀ x, P x → P (execute_response_generation cfg o x))
    (hrt : ∀ x, P x → P (execute_routing x)) :
    (∀ e ctx2, runBody cfg o env tid t opts = .error (e, ctx2) →
      ctx2 = initCtx tid t opts ∨ P ctx2) ∧
    (∀ r ctx2, runBody cfg o env tid t opts = .ok (r, ctx2) →
      (r, ctx2) = build_error_response (execute_validation (initCtx tid t opts))
        "Validation failed" ∨
      (P ctx2 ∧ r = build_success_response ctx2)) := by
  have hgroup : ∀ x, P x →
      P (if opts.enable_parallel = true then execute_parallel_steps cfg o x
         else execute_sequential_steps cfg o x) := by
    intro x h
    split
    · exact parallel_master cfg o P hdup hcls hskipc hext hskipe x h
    · exact sequential_master cfg o P hdup hcls hskipc hext hskipe x h
  constructor
  · intro e ctx2 hrun
    unfold runBody at hrun
    cases hav : env.at_validation with
    | some e0 =>
      rw [hav] at hrun
      simp only [Except.error.injEq, Prod.mk.injEq] at hrun
      left
      exact hrun.2.symm
    | none =>
      rw [hav] at hrun
      dsimp only at hrun
      split at hrun
      · exact absurd hrun (by simp)
      · cases hag : env.at_group with
        | some e0 =>
          rw [hag] at hrun
          simp only [Except.error.injEq, Prod.mk.injEq] at hrun
          right
          rw [← hrun.2]
          exact hval
        | none =>
          rw [hag] at hrun
          right
          exact (response_phase_master cfg o env opts _ P hgen hrt
            (hgroup _ hval)).1 e ctx2 hrun
  · intro r ctx2 hrun
    unfold runBody at hrun
    cases hav : env.at_validation with
    | some e0 =>
      rw [hav] at hrun
      exact absurd hrun (by simp)
    | none =>
      rw [hav] at hrun
      dsimp only at hrun
      split at hrun
      · left
        simp only [Except.ok.injEq] at hrun
        rw [← hrun]
      · cases hag : env.at_group with
        | some e0 =>
          rw [hag] at hrun
          exact absurd hrun (by simp)
        | none =>
          rw [hag] at hrun
          right
          exact (response_phase_master cfg o env opts _ P hgen hrt
            (hgroup _ hval)).2 r ctx2 hrun

/-- C10: the duplicate-detection check returns `(False, None, None)`
unconditionally, so for every configuration, oracle behaviour, environment,
ticket and options, the returned WorkflowResponse has
`duplicate_of = None` and `similarity_score = None`. -/
theorem c10_duplicate_detection_always_none (cfg : OrchConfig) (o : AIOracle)
    (env : FaultEnv) (tid : String) (t : TicketInput) (opts : WorkflowOptions) :
    check_duplicate (initCtx tid t opts) = (false, none, none) ∧
    (execute cfg o env tid t opts).duplicate_of = none ∧
    (execute cfg o env tid t opts).similarity_score = none := by
  refine ⟨rfl, ?_⟩
  have hmaster := runBody_master cfg o env tid t opts DupNone
    (by unfold execute_validation
        dsimp only
        split
        · exact ⟨rfl, rfl⟩
        · exact ⟨rfl, rfl⟩)
    (fun x h => h) (fun x h => h) (fun x h => h) (fun x h => h) (fun x h => h)
    (fun x h => h) (fun x h => h)
  unfold execute execute_run
  cases hrun : runBody cfg o env tid t opts with
  | error p =>
    obtain ⟨e, ctx2⟩ := p
    exact ⟨rfl, rfl⟩
  | ok p =>
    obtain ⟨r, ctx2⟩ := p
    dsimp only
    rcases hmaster.2 r ctx2 hrun with hcase | hcase
    · have h1 : r = (build_error_response
          (execute_validation (initCtx tid t opts)) "Validation failed").1 :=
        congrArg Prod.fst hcase
      rw [h1]
      exact ⟨rfl, rfl⟩
    · rw [hcase.2]
      unfold build_success_response
      exact ⟨hcase.1.1, hcase.1.2⟩

theorem noErrStep_add (ctx : WorkflowContext) (r : WorkflowStepResult)
    (hr : r.step_name ≠ "error") (h : NoErrStep ctx) :
    NoErrStep (add_step_result ctx r) := by
  intro s hs
  rcases List.mem_append.mp hs with h1 | h1
  · exact h s h1
  · rw [List.mem_singleton.mp h1]
    exact hr

theorem noErrStep_validation (ctx : WorkflowContext) (h : NoErrStep ctx) :
    NoErrStep (execute_validation ctx) := by
  unfold execute_validation
  dsimp only
  split
  · exact noErrStep_add _ _ (by simp) h
  · exact noErrStep_add _ _ (by simp) h

theorem noErrStep_initCtx (tid : String) (t : TicketInput) (opts : WorkflowOptions) :
    NoErrStep (initCtx tid t opts) :=
  fun s hs => absurd hs (List.not_mem_nil s)

/-- On a context without an `"error"` step, `_build_error_response` appends
one carrying the given message. -/
theorem build_error_steps (ctx : WorkflowContext) (m : String) (h : NoErrStep ctx) :
    ∃ s ∈ (build_error_response ctx m).1.workflow_steps,
      s.step_name = "error" ∧ s.error = some m := by
  unfold build_error_response
  dsimp only
  rw [if_neg ?hne]
  case hne =>
    intro hany
    obtain ⟨s, hs, hs2⟩ := List.any_eq_true.mp hany
    exact h s hs (of_decide_eq_true hs2)
  refine ⟨{ step_name := "error", status := "failed", error := some m }, ?_, rfl, rfl⟩
  exact List.mem_append_right _ (List.mem_singleton.mpr rfl)

/-- C1: for every configuration, oracle behaviour, fault environment,
ticket and options, the translated `execute` returns a `WorkflowResponse`
and never propagates an exception; and whenever the workflow body throws
(e.g. a timeout delivered at an await point), the returned response is
error-shaped: no response draft, and an `"error"` step carrying the
exception's message. -/
theorem c1_execute_total_and_degraded (cfg : OrchConfig) (o : AIOracle)
    (env : FaultEnv) (tid : String) (t : TicketInput) (opts : WorkflowOptions) :
    (∃ r, executeExcept cfg o env tid t opts = Except.ok r) ∧
    (∀ e ctx2, runBody cfg o env tid t opts = Except.error (e, ctx2) →
      (execute cfg o env tid t opts).response_draft = none ∧
      ∃ s ∈ (execute cfg o env tid t opts).workflow_steps,
        s.step_name = "error" ∧ s.error = some (excMessage e)) := by
  constructor
  · unfold executeExcept
    cases hrun : runBody cfg o env tid t opts with
    | ok rc => exact ⟨rc.1, rfl⟩
    | error p =>
      obtain ⟨e, ctx2⟩ := p
      cases e
      · exact ⟨_, rfl⟩
      · exact ⟨_, rfl⟩
  · intro e ctx2 hrun
    have hne : NoErrStep ctx2 := by
      rcases (runBody_master cfg o env tid t opts NoErrStep
          (noErrStep_validation _ (noErrStep_initCtx tid t opts))
          (fun x h => noErrStep_add _ _ (by simp) h)
          (fun x h => noErrStep_add _ _ (by simp) h)
          (fun x h => h)
          (fun x h => noErrStep_add _ _ (by simp) h)
          (fun x h => h)
          (fun x h => noErrStep_add _ _ (by simp) h)
          (fun x h => noErrStep_add _ _ (by simp) h)).1 e ctx2 hrun with h1 | h1
      · rw [h1]
        exact noErrStep_initCtx tid t opts
      · exact h1
    unfold execute execute_run
    rw [hrun]
    exact ⟨rfl, build_error_steps ctx2 (excMessage e) hne⟩

/-! ### Projection lemmas used by the remaining claims -/

theorem cls_of_dup (y : WorkflowContext) :
    (execute_duplicate_detection y).classification = y.classification := rfl

theorem ext_of_dup (y : WorkflowContext) :
    (execute_duplicate_detection y).extraction = y.extraction := rfl

theorem cls_of_ext (cfg : OrchConfig) (o : AIOracle) (y : WorkflowContext) :
    (execute_extraction cfg o y).classification = y.classification := rfl

theorem ext_of_cls (cfg : OrchConfig) (o : AIOracle) (y : WorkflowContext) :
    (execute_classification cfg o y).extraction = y.extraction := rfl

theorem calls_of_build_error (ctx : WorkflowContext) (m : String) :
    (build_error_response ctx m).2.calls = ctx.calls := by
  unfold build_error_response
  dsimp only
  split
  · rfl
  · rfl

/-! ### SanCalls preservation (claim C7) -/

theorem sanCalls_validation (tid : String) (t : TicketInput) (opts : WorkflowOptions)
    (hv : (validate t).is_valid = true) :
    SanCalls t (execute_validation (initCtx tid t opts)) := by
  unfold execute_validation
  dsimp only [initCtx]
  rw [if_pos hv]
  exact ⟨rfl, fun c hc => absurd hc (List.not_mem_nil c)⟩

theorem sanCalls_call_append (t : TicketInput) (x : WorkflowContext) (n : String)
    (h : SanCalls t x) (c : StageCall)
    (hc : c ∈ x.calls ++
      [{ stage := n, subject := (x.sanitized_ticket.getD x.ticket).subject,
         body := (x.sanitized_ticket.getD x.ticket).body }]) :
    c.subject = (sanitized_ticket_of t).subject ∧
    c.body = (sanitized_ticket_of t).body := by
  rcases List.mem_append.mp hc with h1 | h1
  · exact h.2 c h1
  · rw [List.mem_singleton.mp h1]
    rw [h.1]
    exact ⟨rfl, rfl⟩

theorem sanCalls_cls (cfg : OrchConfig) (o : AIOracle) (t : TicketInput)
    (x : WorkflowContext) (h : SanCalls t x) :
    SanCalls t (execute_classification cfg o x) :=
  ⟨h.1, fun c hc => sanCalls_call_append t x "classification" h c hc⟩

theorem sanCalls_ext (cfg : OrchConfig) (o : AIOracle) (t : TicketInput)
    (x : WorkflowContext) (h : SanCalls t x) :
    SanCalls t (execute_extraction cfg o x) :=
  ⟨h.1, fun c hc => sanCalls_call_append t x "extraction" h c hc⟩

theorem sanCalls_gen (cfg : OrchConfig) (o : AIOracle) (t : TicketInput)
    (x : WorkflowContext) (h : SanCalls t x) :
    SanCalls t (execute_response_generation cfg o x) :=
  ⟨h.1, fun c hc => sanCalls_call_append t x "response_generation" h c hc⟩

theorem sanCalls_rt (t : TicketInput) (x : WorkflowContext) (h : SanCalls t x) :
    SanCalls t (execute_routing x) :=
  ⟨h.1, fun c hc => sanCalls_call_append t x "routing" h c hc⟩

/-- C7: for every configuration, oracle behaviour, fault environment and
options, once validation has succeeded, every recorded collaborator stage
invocation (classification, extraction, response generation, routing)
received the sanitized subject and body in place of the original ticket's
text. -/
theorem c7_stages_receive_sanitized_text (cfg : OrchConfig) (o : AIOracle)
    (env : FaultEnv) (tid : String) (t : TicketInput) (opts : WorkflowOptions)
    (hv : (validate t).is_valid = true) :
    ∀ c ∈ (execute_run cfg o env tid t opts).2.calls,
      c.subject = (sanitized_ticket_of t).subject ∧
      c.body = (sanitized_ticket_of t).body := by
  have hmaster := runBody_master cfg o env tid t opts (SanCalls t)
    (sanCalls_validation tid t opts hv)
    (fun x h => h)
    (fun x h => sanCalls_cls cfg o t x h)
    (fun x h => h)
    (fun x h => sanCalls_ext cfg o t x h)
    (fun x h => h)
    (fun x h => sanCalls_gen cfg o t x h)
    (fun x h => sanCalls_rt t x h)
  unfold execute_run
  cases hrun : runBody cfg o env tid t opts with
  | error p =>
    obtain ⟨e, ctx2⟩ := p
    dsimp only
    intro c hc
    rw [calls_of_build_error ctx2 (excMessage e)] at hc
    rcases hmaster.1 e ctx2 hrun with h1 | h1
    · rw [h1] at hc
      exact absurd hc (List.not_mem_nil c)
    · exact h1.2 c hc
  | ok p =>
    obtain ⟨r, ctx2⟩ := p
    dsimp only
    intro c hc
    rcases hmaster.2 r ctx2 hrun with h1 | h1
    · have h2 : ctx2 = (build_error_response
          (execute_validation (initCtx tid t opts)) "Validation failed").2 :=
        congrArg Prod.snd h1
      rw [h2, calls_of_build_error] at hc
      have h3 : (execute_validation (initCtx tid t opts)).calls = [] := by
        unfold execute_validation
        dsimp only
        split
        · rfl
        · rfl
      rw [h3] at hc
      exact absurd hc (List.not_mem_nil c)
    · exact h1.1.2 c hc

/-! ### Validation characterization (claims C2 and C8) -/

theorem validate_empty_invalid (t : TicketInput)
    (h : pyStrip t.subject = "" ∨ pyStrip t.body = "") :
    (validate t).is_valid = false ∧ (validate t).errors ≠ [] := by
  unfold validate
  dsimp only
  rcases h with h | h
  · have hc : (t.subject = "" || pyStrip t.subject = "") = true := by
      simp [h]
    rw [hc]
    constructor
    · simp
    · simp
  · have hc : (t.body = "" || pyStrip t.body = "") = true := by
      simp [h]
    rw [hc]
    constructor
    · simp
    · simp

theorem validate_valid_errors (t : TicketInput)
    (hv : (validate t).is_valid = true) :
    (validate t).errors = [] := by
  unfold validate at hv ⊢
  dsimp only at hv ⊢
  split_ifs at hv ⊢ <;> simp_all

theorem execute_validation_valid (tid : String) (t : TicketInput)
    (opts : WorkflowOptions) (hv : (validate t).is_valid = true) :
    execute_validation (initCtx tid t opts) =
      add_step_result
        { initCtx tid t opts with sanitized_ticket := some (sanitized_ticket_of t) }
        { step_name := "validation", status := "completed" } := by
  unfold execute_validation
  dsimp only [initCtx]
  rw [if_pos hv]
  rfl

theorem execute_validation_invalid (tid : String) (t : TicketInput)
    (opts : WorkflowOptions) (hv : (validate t).is_valid = false) :
    execute_validation (initCtx tid t opts) =
      add_step_result { initCtx tid t opts with errors := [] ++ (validate t).errors }
        { step_name := "validation", status := "failed",
          error := some (String.intercalate "; " (validate t).errors) } := by
  unfold execute_validation
  dsimp only [initCtx]
  rw [if_neg (by rw [hv]; exact Bool.false_ne_true)]

/-- C2: for every ticket whose subject or body is empty or whitespace-only,
`execute` short-circuits after the validation stage: the step list is
exactly `["validation", "error"]` (no later stage runs), the response draft
is null, and a failed step is present. -/
theorem c2_empty_fields_short_circuit (cfg : OrchConfig) (o : AIOracle)
    (tid : String) (t : TicketInput) (opts : WorkflowOptions)
    (h : pyStrip t.subject = "" ∨ pyStrip t.body = "") :
    (execute cfg o noFaults tid t opts).response_draft = none ∧
    ((execute cfg o noFaults tid t opts).workflow_steps.map
      WorkflowStepResult.step_name) = ["validation", "error"] ∧
    ∃ s ∈ (execute cfg o noFaults tid t opts).workflow_steps, s.status = "failed" := by
  obtain ⟨hv, he⟩ := validate_empty_invalid t h
  have hctx1 := execute_validation_invalid tid t opts hv
  have hrun : runBody cfg o noFaults tid t opts =
      .ok (build_error_response (execute_validation (initCtx tid t opts))
        "Validation failed") := by
    unfold runBody
    dsimp only [noFaults]
    rw [if_pos]
    rw [hctx1]
    simp only [Bool.and_eq_true, decide_eq_true_eq]
    constructor
    · show [] ++ (validate t).errors ≠ []
      simpa using he
    · rfl
  unfold execute execute_run
  rw [hrun]
  dsimp only
  rw [hctx1]
  refine ⟨rfl, rfl, ?_⟩
  refine ⟨{ step_name := "validation", status := "failed",
            error := some (String.intercalate "; " (validate t).errors) }, ?_, rfl⟩
  unfold build_error_response add_step_result
  dsimp only
  split
  · exact List.mem_append_right _ (List.mem_singleton.mpr rfl)
  · exact List.mem_append_left _ (List.mem_append_right _ (List.mem_singleton.mpr rfl))

/-! ### Skip semantics (claim C8) -/

theorem options_of_parallel (cfg : OrchConfig) (o : AIOracle) (y : WorkflowContext) :
    (execute_parallel_steps cfg o y).options = y.options := by
  unfold execute_parallel_steps
  dsimp only
  split_ifs <;> rfl

theorem options_of_sequential (cfg : OrchConfig) (o : AIOracle) (y : WorkflowContext) :
    (execute_sequential_steps cfg o y).options = y.options := by
  unfold execute_sequential_steps
  dsimp only
  split_ifs <;> rfl

theorem skipDefaults_parallel (cfg : OrchConfig) (o : AIOracle) (x : WorkflowContext) :
    SkipDefaults (execute_parallel_steps cfg o x) := by
  have hopt := options_of_parallel cfg o x
  constructor
  · intro hsc
    rw [hopt] at hsc
    by_cases hse : x.options.skip_extraction = true <;>
      by_cases hdup : x.options.enable_duplicate_detection = true <;>
        simp [execute_parallel_steps, hsc, hse, hdup, cls_of_dup, cls_of_ext]
  · intro hse
    rw [hopt] at hse
    by_cases hsc : x.options.skip_classification = true <;>
      by_cases hdup : x.options.enable_duplicate_detection = true <;>
        simp [execute_parallel_steps, hsc, hse, hdup, ext_of_dup, ext_of_cls]

theorem skipDefaults_sequential (cfg : OrchConfig) (o : AIOracle) (x : WorkflowContext) :
    SkipDefaults (execute_sequential_steps cfg o x) := by
  have hopt := options_of_sequential cfg o x
  constructor
  · intro hsc
    rw [hopt] at hsc
    by_cases hse : x.options.skip_extraction = true <;>
      by_cases hdup : x.options.enable_duplicate_detection = true <;>
        simp [execute_sequential_steps, hsc, hse, hdup, cls_of_dup, cls_of_ext]
  · intro hse
    rw [hopt] at hse
    by_cases hsc : x.options.skip_classification = true <;>
      by_cases hdup : x.options.enable_duplicate_detection = true <;>
        simp [execute_sequential_steps, hsc, hse, hdup, ext_of_dup, ext_of_cls]

theorem build_error_cls (ctx : WorkflowContext) (m : String) :
    (build_error_response ctx m).1.classification =
      ctx.classification.getD
        { category := "general", category_confidence := q 3 10, severity := "medium",
          severity_confidence := q 3 10,
          reasoning := some ("Error occurred: " ++ m) } := by
  unfold build_error_response
  dsimp only
  split
  · rfl
  · rfl

theorem build_error_ext (ctx : WorkflowContext) (m : String) :
    (build_error_response ctx m).1.extracted_fields =
      ctx.extraction.getD ({} : ExtractionResult) := by
  unfold build_error_response
  dsimp only
  split
  · rfl
  · rfl

/-- C8: for every ticket that passes validation (with no injected faults),
skipping classification yields the synthetic default classification
(category `general`, severity `medium`, both confidences 1.0, reasoning
`"Classification skipped"`) in the returned response, and skipping
extraction yields the synthetic empty extraction result — downstream stages
and the response always receive a non-null input. -/
theorem c8_skip_semantics (cfg : OrchConfig) (o : AIOracle) (tid : String)
    (t : TicketInput) (opts : WorkflowOptions)
    (hv : (validate t).is_valid = true) :
    (opts.skip_classification = true →
      (execute cfg o noFaults tid t opts).classification = skippedClassification) ∧
    (opts.skip_extraction = true →
      (execute cfg o noFaults tid t opts).extracted_fields =
        ({} : ExtractionResult)) := by
  have herr : (execute_validation (initCtx tid t opts)).errors = [] := by
    rw [execute_validation_valid tid t opts hv]
    show (initCtx tid t opts).errors = []
    rfl
  have hrun : runBody cfg o noFaults tid t opts =
      response_phase cfg o noFaults opts
        (if opts.enable_parallel = true
         then execute_parallel_steps cfg o (execute_validation (initCtx tid t opts))
         else execute_sequential_steps cfg o (execute_validation (initCtx tid t opts))) := by
    unfold runBody
    dsimp only [noFaults]
    rw [if_neg]
    simp [herr]
  have hP : (fun y => SkipDefaults y ∧ y.options = opts)
      (if opts.enable_parallel = true
       then execute_parallel_steps cfg o (execute_validation (initCtx tid t opts))
       else execute_sequential_steps cfg o (execute_validation (initCtx tid t opts))) := by
    have hvopt : (execute_validation (initCtx tid t opts)).options = opts := by
      rw [execute_validation_valid tid t opts hv]
      rfl
    split
    · exact ⟨skipDefaults_parallel cfg o _, by rw [options_of_parallel, hvopt]⟩
    · exact ⟨skipDefaults_sequential cfg o _, by rw [options_of_sequential, hvopt]⟩
  have hmaster := response_phase_master cfg o noFaults opts _
    (fun y => SkipDefaults y ∧ y.options = opts)
    (fun x h => h) (fun x h => h) hP
  unfold execute execute_run
  rw [hrun]
  cases hrr : response_phase cfg o noFaults opts
      (if opts.enable_parallel = true
       then execute_parallel_steps cfg o (execute_validation (initCtx tid t opts))
       else execute_sequential_steps cfg o (execute_validation (initCtx tid t opts))) with
  | error p =>
    obtain ⟨e, ctx2⟩ := p
    have hctx2 := hmaster.1 e ctx2 hrr
    dsimp only
    constructor
    · intro hsc
      have h1 : ctx2.classification = some skippedClassification :=
        hctx2.1.1 (by rw [hctx2.2]; exact hsc)
      rw [build_error_cls, h1]
      rfl
    · intro hse
      have h1 : ctx2.extraction = some ({} : ExtractionResult) :=
        hctx2.1.2 (by rw [hctx2.2]; exact hse)
      rw [build_error_ext, h1]
      rfl
  | ok p =>
    obtain ⟨r, ctx2⟩ := p
    have hctx2 := hmaster.2 r ctx2 hrr
    dsimp only
    rw [hctx2.2]
    constructor
    · intro hsc
      have h1 : ctx2.classification = some skippedClassification :=
        hctx2.1.1.1 (by rw [hctx2.1.2]; exact hsc)
      unfold build_success_response
      dsimp only
      rw [h1]
      rfl
    · intro hse
      have h1 : ctx2.extraction = some ({} : ExtractionResult) :=
        hctx2.1.1.2 (by rw [hctx2.1.2]; exact hse)
      unfold build_success_response
      dsimp only
      rw [h1]
      rfl

/-- `_find_alternative_teams` never returns the primary team and returns at
most two alternatives. -/
theorem find_alternative_teams_spec (category primary_team : String) :
    primary_team ∉ find_alternative_teams category primary_team ∧
    (find_alternative_teams category primary_team).length ≤ 2 := by
  unfold find_alternative_teams
  dsimp only
  by_cases h0 : ((DEFAULT_TEAMS.filter (fun p =>
      p.1 ≠ primary_team && p.1 ≠ "escalation_team" &&
        p.2.categories.contains category)).map Prod.fst) = []
  · rw [if_pos h0]
    by_cases hpt : primary_team = "technical_support"
    · rw [if_neg (by simp [hpt])]
      constructor
      · simp
      · simp
    · rw [if_pos hpt]
      constructor
      · simp [List.take]
        exact fun hmem => hpt hmem
      · simp [List.take]
  · rw [if_neg h0]
    constructor
    · intro hmem
      have hsub : primary_team ∈ (DEFAULT_TEAMS.filter (fun p =>
          p.1 ≠ primary_team && p.1 ≠ "escalation_team" &&
            p.2.categories.contains category)).map Prod.fst :=
        List.take_subset _ _ hmem
      obtain ⟨p, hp, hp1⟩ := List.mem_map.mp hsub
      have hpred := (List.mem_filter.mp hp).2
      simp only [Bool.and_eq_true, decide_eq_true_eq] at hpred
      exact hpred.1.1 (hp1 ▸ rfl)
    · rw [List.length_take]
      exact min_le_left _ _

/-- C9: for every subject, body, category, severity, and extracted-fields
map, the routing decision never lists the primary team among its
alternatives and offers at most two alternative teams. -/
theorem c9_alternative_teams_invariant (subject body category severity : String)
    (extracted_fields : List (String × FieldValue)) :
    (route subject body category severity extracted_fields).team ∉
      (route subject body category severity extracted_fields).alternative_teams ∧
    (route subject body category severity extracted_fields).alternative_teams.length ≤ 2 := by
  unfold route
  dsimp only
  by_cases hcrit : severity = "critical"
  · rw [if_pos hcrit]
    constructor
    · simp [build_routing_decision]
    · simp [build_routing_decision]
  · rw [if_neg hcrit]
    exact find_alternative_teams_spec category (find_team_by_category category)

/-- Witness for C1 at a concrete input: with a timeout delivered at the
parallel-group boundary, the body throws and the returned response is
error-shaped with the timeout message. -/
theorem c1_witness :
    runBody ({} : OrchConfig) failingOracle groupTimeoutEnv "tid" sampleTicket {} =
      Except.error (Exc.timeout, execute_validation (initCtx "tid" sampleTicket {})) ∧
    ((execute {} failingOracle groupTimeoutEnv "tid" sampleTicket {}).response_draft = none ∧
     ∃ s ∈ (execute {} failingOracle groupTimeoutEnv "tid" sampleTicket {}).workflow_steps,
       s.step_name = "error" ∧ s.error = some (excMessage Exc.timeout)) :=
  ⟨rfl,
   (c1_execute_total_and_degraded {} failingOracle groupTimeoutEnv "tid" sampleTicket {}).2
     Exc.timeout (execute_validation (initCtx "tid" sampleTicket {})) rfl⟩

/-- Witness for C2 at a concrete input: a whitespace-only subject. -/
theorem c2_witness :
    (pyStrip blankSubjectTicket.subject = "" ∨ pyStrip blankSubjectTicket.body = "") ∧
    ((execute {} failingOracle noFaults "tid" blankSubjectTicket {}).response_draft = none ∧
     ((execute {} failingOracle noFaults "tid" blankSubjectTicket {}).workflow_steps.map
       WorkflowStepResult.step_name) = ["validation", "error"] ∧
     ∃ s ∈ (execute {} failingOracle noFaults "tid" blankSubjectTicket {}).workflow_steps,
       s.status = "failed") :=
  ⟨Or.inl (by decide),
   c2_empty_fields_short_circuit {} failingOracle "tid" blankSubjectTicket {}
     (Or.inl (by decide))⟩

/-- Witness for C7 at a concrete input. -/
theorem c7_witness :
    (validate sampleTicket).is_valid = true ∧
    ∀ c ∈ (execute_run {} failingOracle noFaults "tid" sampleTicket {}).2.calls,
      c.subject = (sanitized_ticket_of sampleTicket).subject ∧
      c.body = (sanitized_ticket_of sampleTicket).body :=
  ⟨by decide,
   c7_stages_receive_sanitized_text {} failingOracle noFaults "tid" sampleTicket {}
     (by decide)⟩

/-- Witness for C8 at a concrete input. -/
theorem c8_witness :
    (validate sampleTicket).is_valid = true ∧
    skipBothOptions.skip_classification = true ∧
    skipBothOptions.skip_extraction = true ∧
    (execute {} failingOracle noFaults "tid" sampleTicket skipBothOptions).classification =
      skippedClassification ∧
    (execute {} failingOracle noFaults "tid" sampleTicket skipBothOptions).extracted_fields =
      ({} : ExtractionResult) :=
  ⟨by decide, rfl, rfl,
   (c8_skip_semantics {} failingOracle "tid" sampleTicket skipBothOptions (by decide)).1 rfl,
   (c8_skip_semantics {} failingOracle "tid" sampleTicket skipBothOptions (by decide)).2 rfl⟩

/-- C3 (code bug): when the AI collaborator raises during classification,
`classify` swallows the exception internally and returns the rule-based
result, so the orchestrator's `try` block never sees an error: the appended
classification step has `status="completed"` but `fallback_used=false` and
no error text — no step of the whole run is marked `fallback_used`, which
contradicts the claim (and the repository's own test
`test_fallback_flagged`). -/
theorem c3_classification_fallback_not_flagged :
    (execute {} failingOracle noFaults "tid" { subject := "Test", body := "Test" }
        {}).workflow_steps.all (fun s => !s.fallback_used) = true ∧
    (execute {} failingOracle noFaults "tid" { subject := "Test", body := "Test" }
        {}).workflow_steps.filter (fun s => s.step_name == "classification") =
      [{ step_name := "classification", status := "completed", error := none,
         fallback_used := false, tokens_used := some 0 }] ∧
    (execute {} failingOracle noFaults "tid" { subject := "Test", body := "Test" }
        {}).classification = classify_with_rules "Test" "Test" := by
  refine ⟨?_, ?_, ?_⟩ <;> decide

end TicketWorkflow
